import Mathlib

/-!
# Actor invocation runtime (`systems/filecoin_vm/runtime/runtime.go`)

A shallow embedding of the `VMContext` runtime.  A Go method on `*VMContext`
becomes a function in the monad `Rt`, which threads the frame and records how
the call ended: a normal return, a `panic` carrying a `*RuntimeError`, or any
other `panic`.  Collaborating packages that `runtime.go` only imports (state
tree, exit codes, messages, actor constants) are modelled from the
specification and are marked as such.  The markers `util.TODO()` in
`_invokeMethodInternal` and `_sendInternal` stand for steps that are not
written yet and are read as doing nothing; a body that is left unfinished
and ends in `panic("")` is translated as that panic; error message strings
are left out, since no recovery looks at them.
-/

set_option linter.unusedVariables false

namespace Runtime

/-! ## Imported value types -/

/-- Modelled from the spec: `util.Bytes`, a byte string; `nil` is the empty list. -/
abbrev Bytes := List Nat

/-- Modelled from the spec: `addr.Address`, an actor identity (bytes, read as a number). -/
abbrev Address := Nat

/-- Modelled from the spec: the value an `addr.Address` field holds when it was never assigned. -/
def Address_zero : Address := 0

/-- Modelled from the spec: code identity of an actor, the key of the code loader. -/
abbrev CodeID := Nat

/-- Modelled from the spec: `actor.ActorSystemStateCID`, the code binding handed to
`WithActorSystemState`. -/
abbrev ActorSystemStateCID := CodeID

/-- Modelled from the spec: `actor.ActorSubstateCID`, content identifier of the
actor-private state. -/
abbrev ActorSubstateCID := Bytes

/-- Modelled from the spec: `actor.MethodNum`. -/
abbrev MethodNum := Nat

/-- Modelled from the spec: `actor.MethodParams`. -/
abbrev MethodParams := Bytes

/-- Modelled from the spec: `actor.CallSeqNum`, a counter. -/
abbrev CallSeqNum := Nat

/-- Modelled from the spec: `actor.TokenAmount`, a non-negative amount. -/
abbrev TokenAmount := Nat

/-- Modelled from the spec: `msg.GasAmount`, a signed quantity with order, `Add`
and `Subtract`. -/
abbrev GasAmount := Int

/-- Modelled from the spec: `msg.GasAmount_Zero()`. -/
def GasAmount_Zero : GasAmount := 0

/-! ## Exit codes (package `exitcode`) -/

/-- Modelled from the spec: the sub-codes of a runtime-originated failure. -/
inductive SystemErrorCode where
  | OutOfGas
  | ActorCodeNotFound
  | InsufficientFunds_System
  | MethodSubcallError
  | RuntimeAPIError
  | RuntimeAssertFailure
deriving DecidableEq

/-- Modelled from the spec: the sub-codes of an actor-originated abort. -/
inductive UserDefinedErrorCode where
  | InvalidArguments_User
  | InconsistentState_User
  | InsufficientFunds_User
  | Custom (n : Nat)
deriving DecidableEq

/-- Modelled from the spec: `exitcode.ExitCode`, one of three disjoint kinds. -/
inductive ExitCode where
  | OK
  | SystemError (sub : SystemErrorCode)
  | UserDefinedError (sub : UserDefinedErrorCode)
deriving DecidableEq

namespace ExitCode

/-- Modelled from the spec: `IsError = kind ≠ OK`. -/
def IsError : ExitCode → Bool
  | OK => false
  | _ => true

/-- Modelled from the spec: `AllowsStateUpdate = (kind = OK)`. -/
def AllowsStateUpdate : ExitCode → Bool
  | OK => true
  | _ => false

/-- Modelled from the spec: equality of exit codes. -/
def Equals (x y : ExitCode) : Bool := decide (x = y)

end ExitCode

open ExitCode (OK SystemError UserDefinedError)
open SystemErrorCode UserDefinedErrorCode

/-- Modelled from the spec: `exitcode.EnsureErrorCode` keeps an error code and turns
`OK` into a generic error, here the runtime API error. -/
def EnsureErrorCode (x : ExitCode) : ExitCode :=
  if !x.IsError then SystemError RuntimeAPIError else x

/-! ## Messages (package `msg`) -/

/-- Modelled from the spec: `msg.InvocInput`, the input of a Send. -/
structure InvocInput where
  To : Address
  Method : MethodNum
  Params : MethodParams
  Value : TokenAmount
deriving DecidableEq

/-- Modelled from the spec: `msg.InvocOutput`, the output bytes of an invocation. -/
structure InvocOutput where
  ReturnValue : Bytes
deriving DecidableEq

/-- Modelled from the spec: `msg.InvocOutput_Make`. -/
def InvocOutput_Make (value : Bytes) : InvocOutput := ⟨value⟩

/-- Modelled from the spec: `msg.MessageReceipt`, the triple (output, exit code, gas used). -/
structure MessageReceipt where
  ReturnValue : Bytes
  ExitCode : ExitCode
  GasUsed : GasAmount
deriving DecidableEq

/-- Modelled from the spec: `msg.MessageReceipt_Make`. -/
def MessageReceipt_Make (output : InvocOutput) (exitCode : ExitCode) (gasUsed : GasAmount) :
    MessageReceipt :=
  ⟨output.ReturnValue, exitCode, gasUsed⟩

/-! ## State tree (package `state_tree`) -/

/-- Modelled from the spec: one entry of the state tree: code binding, substate
root and balance of an actor. -/
structure ActorState where
  CodeID : CodeID
  State : ActorSubstateCID
  Balance : TokenAmount
deriving DecidableEq

/-- Modelled from the spec: `st.StateTree`, an immutable mapping from addresses to
actor entries; an address without an entry maps to `none` (Go `nil`). -/
def StateTree := Address → Option ActorState

namespace StateTree

/-- Modelled from the spec: `GetActorState(addr)`. -/
def GetActorState (t : StateTree) (a : Address) : Option ActorState := t a

/-- Modelled from the spec: `WithActorSystemState(addr, code-id)` installs the code
binding of `addr`, creating the entry when the address is new. -/
def WithActorSystemState (t : StateTree) (a : Address) (c : ActorSystemStateCID) :
    Option StateTree :=
  let entry : ActorState :=
    match t a with
    | some s => { s with CodeID := c }
    | none => { CodeID := c, State := [], Balance := 0 }
  some (fun x => if x = a then some entry else t x)

/-- Modelled from the spec: `WithActorSubstate(addr, ref)` overwrites the substate
root of `addr`; it is an error when `addr` has no entry. -/
def WithActorSubstate (t : StateTree) (a : Address) (ref : ActorSubstateCID) :
    Option StateTree :=
  match t a with
  | none => none
  | some s => some (fun x => if x = a then some { s with State := ref } else t x)

/-- Modelled from the spec: `WithFundsTransfer(from, to, amount)` moves `amount` from
one balance to the other; it is an error when an entry is missing or the
balance of `from` is smaller than `amount`. -/
def WithFundsTransfer (t : StateTree) (from_ to_ : Address) (amount : TokenAmount) :
    Option StateTree :=
  match t from_, t to_ with
  | some f, some _ =>
    if f.Balance < amount then none
    else
      let t1 : StateTree :=
        fun x => if x = from_ then some { f with Balance := f.Balance - amount } else t x
      match t1 to_ with
      | none => none
      | some r => some (fun x => if x = to_ then some { r with Balance := r.Balance + amount } else t1 x)
  | _, _ => none

end StateTree

/-! ## The frame -/

/-- The struct `VMContext`: one frame per actor method invocation. -/
structure VMContext where
  _globalStateInit : StateTree
  _globalStatePending : StateTree
  _running : Bool
  _actorAddress : Address
  _actorStateAcquired : Bool
  _immediateCaller : Address
  _toplevelSender : Address
  _toplevelBlockWinner : Address
  _toplevelSenderCallSeqNum : CallSeqNum
  _internalCallSeqNum : CallSeqNum
  _valueReceived : TokenAmount
  _gasRemaining : GasAmount
  _numValidateCalls : Int
  _output : Option InvocOutput

/-- The constructor `VMContext_Make`.  The literal names no `_immediateCaller`, so
that field keeps the unassigned address. -/
def VMContext_Make
    (toplevelSender : Address)
    (toplevelBlockWinner : Address)
    (toplevelSenderCallSeqNum : CallSeqNum)
    (internalCallSeqNum : CallSeqNum)
    (globalState : StateTree)
    (actorAddress : Address)
    (valueReceived : TokenAmount)
    (gasRemaining : GasAmount) : VMContext :=
  { _globalStateInit := globalState
    _globalStatePending := globalState
    _running := false
    _actorAddress := actorAddress
    _actorStateAcquired := false
    _immediateCaller := Address_zero
    _toplevelSender := toplevelSender
    _toplevelBlockWinner := toplevelBlockWinner
    _toplevelSenderCallSeqNum := toplevelSenderCallSeqNum
    _internalCallSeqNum := internalCallSeqNum
    _valueReceived := valueReceived
    _gasRemaining := gasRemaining
    _numValidateCalls := 0
    _output := none }

/-! ## How a call on a frame ends -/

/-- Outcome of a call made on a frame.  `ok a rt`: normal return of `a`, the frame
now being `rt`.  `abort e rt`: `panic(*RuntimeError)` with exit code `e`, raised
when the frame was `rt`.  `fatal`: any other Go panic (a string panic, a nil
dereference); nothing in the runtime recovers from it. -/
inductive Result (α : Type) where
  | ok (a : α) (rt : VMContext)
  | abort (exitCode : ExitCode) (rt : VMContext)
  | fatal

namespace Result

/-- The value returned, if the call returned. -/
def value {α : Type} : Result α → Option α
  | ok a _ => some a
  | _ => none

/-- The exit code raised, if the call raised a `RuntimeError`. -/
def raised {α : Type} : Result α → Option ExitCode
  | abort e _ => some e
  | _ => none

/-- The frame as the call left it (returned or raised). -/
def frame {α : Type} : Result α → Option VMContext
  | ok _ rt => some rt
  | abort _ rt => some rt
  | fatal => none

end Result

/-- A method with receiver `rt *VMContext` and result `α`. -/
def Rt (α : Type) : Type := VMContext → Result α

namespace Rt

/-- Return `a` without touching the frame. -/
protected def pure {α : Type} (a : α) : Rt α := fun rt => .ok a rt

/-- Sequencing: a raise or a fatal panic of the first call skips the rest. -/
protected def bind {α β : Type} (m : Rt α) (f : α → Rt β) : Rt β := fun rt =>
  match m rt with
  | .ok a rt1 => f a rt1
  | .abort e rt1 => .abort e rt1
  | .fatal => .fatal

end Rt

instance : Monad Rt where
  pure := Rt.pure
  bind := Rt.bind

/-- Read the receiver. -/
def getRt : Rt VMContext := fun rt => .ok rt rt

/-- Assign to fields of the receiver. -/
def modifyRt (f : VMContext → VMContext) : Rt Unit := fun rt => .ok () (f rt)

/-- A Go `panic` whose value is not a `*RuntimeError`. -/
def goPanic {α : Type} : Rt α := fun _ => .fatal

/-- A Go value that may be nil and is dereferenced, or a call that may end in a
panic which is not a `RuntimeError`: `none` is that panic. -/
def orPanic {α : Type} : Option α → Rt α
  | none => goPanic
  | some a => pure a

/-! ## Actor code and state handles -/

/-- `ActorSubstateCID_Equals`.  The body is `IMPL_FINISH()` followed by `panic("")`:
whatever the marker does, the call ends in a panic that is not a
`RuntimeError` and yields no result, which is `none`. -/
def ActorSubstateCID_Equals (x y : ActorSubstateCID) : Option Bool := none

/-- The interface `ActorCode`: a method dispatch entry.  The `Runtime` argument of
`InvokeMethod` is the frame the resulting `Rt` runs on. -/
structure ActorCode where
  InvokeMethod : MethodNum → MethodParams → Rt InvocOutput

/-- The struct `ActorStateHandle`.  `_initValue` is the nullable one-shot initial
ref; the back-link `_rt` is the frame the handle methods run on. -/
structure ActorStateHandle where
  _initValue : Option ActorSubstateCID
deriving DecidableEq

/-! ## Raising errors -/

/-- `_throwErrorFull`: `panic(exitcode.RuntimeError_Make(exitCode, errMsg))`. -/
def _throwErrorFull {α : Type} (exitCode : ExitCode) : Rt α := fun rt => .abort exitCode rt

/-- `_throwError`. -/
def _throwError {α : Type} (exitCode : ExitCode) : Rt α := _throwErrorFull exitCode

/-- `_apiError`. -/
def _apiError {α : Type} : Rt α := _throwErrorFull (SystemError RuntimeAPIError)

/-- `Abort`: coerce the code to an error code and raise it. -/
def Abort {α : Type} (errExitCode : ExitCode) : Rt α :=
  _throwErrorFull (EnsureErrorCode errExitCode)

/-- `AbortArgMsg` and `AbortArg`. -/
def AbortArg {α : Type} : Rt α := Abort (UserDefinedError InvalidArguments_User)

/-- `AbortStateMsg` and `AbortState`. -/
def AbortState {α : Type} : Rt α := Abort (UserDefinedError InconsistentState_User)

/-- `AbortFundsMsg` and `AbortFunds`. -/
def AbortFunds {α : Type} : Rt α := Abort (UserDefinedError InsufficientFunds_User)

/-- `AbortAPI`. -/
def AbortAPI {α : Type} : Rt α := Abort (SystemError RuntimeAPIError)

/-- `Assert`. -/
def Assert (cond : Bool) : Rt Unit := do
  if !cond then
    Abort (SystemError RuntimeAssertFailure)

/-! ## Protocol checks -/

/-- `_checkRunning`: a string panic when no actor code is running. -/
def _checkRunning : Rt Unit := do
  let rt ← getRt
  if !rt._running then
    goPanic

/-- `_checkActorStateAcquiredFlag`. -/
def _checkActorStateAcquiredFlag (expected : Bool) : Rt Unit := do
  _checkRunning
  let rt ← getRt
  if rt._actorStateAcquired != expected then
    _apiError

/-- `_checkActorStateAcquired`. -/
def _checkActorStateAcquired : Rt Unit := _checkActorStateAcquiredFlag true

/-- `_checkActorStateNotAcquired`. -/
def _checkActorStateNotAcquired : Rt Unit := _checkActorStateAcquiredFlag false

/-- `_checkNumValidateCalls`. -/
def _checkNumValidateCalls (x : Int) : Rt Unit := do
  let rt ← getRt
  if rt._numValidateCalls ≠ x then
    AbortAPI

/-! ## State updates -/

/-- `_updateActorSystemStateInternal`.  The body writes at `rt._actorAddress`; its
parameter `actorAddress` is not used. -/
def _updateActorSystemStateInternal (actorAddress : Address)
    (newStateCID : ActorSystemStateCID) : Rt Unit := do
  let rt ← getRt
  match rt._globalStatePending.WithActorSystemState rt._actorAddress newStateCID with
  | none => goPanic
  | some newGlobalStatePending =>
    modifyRt fun rt => { rt with _globalStatePending := newGlobalStatePending }

/-- `_updateActorSubstateInternal`.  The body writes at `rt._actorAddress`; its
parameter `actorAddress` is not used. -/
def _updateActorSubstateInternal (actorAddress : Address)
    (newStateCID : ActorSubstateCID) : Rt Unit := do
  let rt ← getRt
  match rt._globalStatePending.WithActorSubstate rt._actorAddress newStateCID with
  | none => goPanic
  | some newGlobalStatePending =>
    modifyRt fun rt => { rt with _globalStatePending := newGlobalStatePending }

/-- `_updateReleaseActorSubstate`. -/
def _updateReleaseActorSubstate (newStateCID : ActorSubstateCID) : Rt Unit := do
  _checkRunning
  _checkActorStateAcquired
  let rt ← getRt
  _updateActorSubstateInternal rt._actorAddress newStateCID
  modifyRt fun rt => { rt with _actorStateAcquired := false }

/-- `_releaseActorSubstate`.  A missing entry of the executing actor is a nil
dereference; the comparison on line 192 is a call of `ActorSubstateCID_Equals`
and passes its panic on. -/
def _releaseActorSubstate (checkStateCID : ActorSubstateCID) : Rt Unit := do
  _checkRunning
  _checkActorStateAcquired
  let rt ← getRt
  match rt._globalStatePending.GetActorState rt._actorAddress with
  | none => goPanic
  | some prevState =>
    let prevStateCID := prevState.State
    let same ← orPanic (ActorSubstateCID_Equals prevStateCID checkStateCID)
    if !same then
      AbortAPI
    modifyRt fun rt => { rt with _actorStateAcquired := false }

/-- `AcquireState`. -/
def AcquireState : Rt ActorStateHandle := do
  _checkRunning
  _checkActorStateNotAcquired
  modifyRt fun rt => { rt with _actorStateAcquired := true }
  let rt ← getRt
  match rt._globalStatePending.GetActorState rt._actorAddress with
  | none => goPanic
  | some s => return { _initValue := some s.State }

namespace ActorStateHandle

/-- `ActorStateHandle.UpdateRelease`. -/
def UpdateRelease (h : ActorStateHandle) (newStateCID : ActorSubstateCID) : Rt Unit :=
  _updateReleaseActorSubstate newStateCID

/-- `ActorStateHandle.Release`. -/
def Release (h : ActorStateHandle) (checkStateCID : ActorSubstateCID) : Rt Unit :=
  _releaseActorSubstate checkStateCID

/-- `ActorStateHandle.Take`: returns the initial ref and the handle with
`_initValue` set to nil. -/
def Take (h : ActorStateHandle) : Rt (ActorSubstateCID × ActorStateHandle) :=
  match h._initValue with
  | none => _apiError
  | some ret => pure (ret, { h with _initValue := none })

end ActorStateHandle

/-! ## Accessors and caller validation -/

/-- `ImmediateCaller`. -/
def ImmediateCaller : Rt Address := do
  let rt ← getRt
  return rt._immediateCaller

/-- `ToplevelSender`. -/
def ToplevelSender : Rt Address := do
  let rt ← getRt
  return rt._toplevelSender

/-- `ToplevelBlockWinner`. -/
def ToplevelBlockWinner : Rt Address := do
  let rt ← getRt
  return rt._toplevelBlockWinner

/-- `InternalCallSeqNum`. -/
def InternalCallSeqNum : Rt CallSeqNum := do
  let rt ← getRt
  return rt._internalCallSeqNum

/-- `ToplevelSenderCallSeqNum`. -/
def ToplevelSenderCallSeqNum : Rt CallSeqNum := do
  let rt ← getRt
  return rt._toplevelSenderCallSeqNum

/-- `ValueReceived`. -/
def ValueReceived : Rt TokenAmount := do
  let rt ← getRt
  return rt._valueReceived

/-- The struct `CallerPattern`. -/
structure CallerPattern where
  Matches : Address → Bool

/-- `CallerPattern_MakeSingleton`. -/
def CallerPattern_MakeSingleton (x : Address) : CallerPattern :=
  { Matches := fun y => decide (x = y) }

/-- `CallerPattern_MakeAcceptAny`. -/
def CallerPattern_MakeAcceptAny : CallerPattern :=
  { Matches := fun _ => true }

/-- `ValidateImmediateCallerMatches`. -/
def ValidateImmediateCallerMatches (callerExpectedPattern : CallerPattern) : Rt Unit := do
  _checkRunning
  _checkNumValidateCalls 0
  let caller ← ImmediateCaller
  if !callerExpectedPattern.Matches caller then
    AbortAPI
  modifyRt fun rt => { rt with _numValidateCalls := rt._numValidateCalls + 1 }

/-- `ValidateImmediateCallerIs`. -/
def ValidateImmediateCallerIs (callerExpected : Address) : Rt Unit :=
  ValidateImmediateCallerMatches (CallerPattern_MakeSingleton callerExpected)

/-- `ValidateImmediateCallerAcceptAny`. -/
def ValidateImmediateCallerAcceptAny : Rt Unit :=
  ValidateImmediateCallerMatches CallerPattern_MakeAcceptAny

/-- `SuccessReturn`. -/
def SuccessReturn : InvocOutput := InvocOutput_Make []

/-- `ValueReturn`. -/
def ValueReturn (value : Bytes) : InvocOutput := InvocOutput_Make value

/-! ## Gas -/

/-- `_checkGasRemaining`. -/
def _checkGasRemaining : Rt Unit := do
  let rt ← getRt
  if rt._gasRemaining < GasAmount_Zero then
    _throwError (SystemError OutOfGas)

/-- `_deductGasRemaining`. -/
def _deductGasRemaining (x : GasAmount) : Rt Unit := do
  _checkGasRemaining
  modifyRt fun rt => { rt with _gasRemaining := rt._gasRemaining - x }
  _checkGasRemaining

/-- `_refundGasRemaining`. -/
def _refundGasRemaining (x : GasAmount) : Rt Unit := do
  _checkGasRemaining
  modifyRt fun rt => { rt with _gasRemaining := rt._gasRemaining + x }
  _checkGasRemaining

/-! ## Funds -/

/-- `_transferFunds`; the result is `true` when the Go function returns a non-nil
error. -/
def _transferFunds (from_ to_ : Address) (amount : TokenAmount) : Rt Bool := do
  _checkRunning
  _checkActorStateNotAcquired
  let rt ← getRt
  match rt._globalStatePending.WithFundsTransfer from_ to_ amount with
  | none => return true
  | some newGlobalStatePending =>
    modifyRt fun rt => { rt with _globalStatePending := newGlobalStatePending }
    return false

/-! ## Collaborators of the Send engine -/

/-- Go `interface{}` values exchanged with the compute functions. -/
inductive AnyVal where
  | bool (b : Bool)
  | bytes (b : Bytes)
  | address (a : Address)
deriving DecidableEq

/-- Modelled from the spec: an entry of the compute table, `(gas_cost_fn, body)`. -/
structure ComputeFunctionDef where
  GasCostFn : List AnyVal → GasAmount
  Body : List AnyVal → AnyVal

/-- Modelled from the spec: `ComputeFunctionID`, the key of the compute table. -/
abbrev ComputeFunctionID := Nat

/-- Modelled from the spec: what `runtime.go` takes from outside the file: the
actor constants, the value `ExitCode_zero` that a variable of the absent type
`exitcode.ExitCode` holds when it was never assigned, the code loader
`loadActorCode`, the gas registry that the source leaves as a marked gap
(`toActorMethodGasBound`; as written, lines 427 to 429 reserve the zero
amount), the compute table and the public key lookup of an actor entry. -/
structure Env where
  InitActorAddr : Address
  MethodSend : MethodNum
  MethodConstructor : MethodNum
  ExitCode_zero : ExitCode
  loadActorCode : CodeID → Option ActorCode
  toActorMethodGasBound : CodeID → MethodNum → MethodParams → GasAmount
  _computeFunctionDefs : ComputeFunctionID → Option ComputeFunctionDef
  ComputeFunctionID_VerifySignature : ComputeFunctionID
  GetSignaturePublicKey : ActorState → Option AnyVal

/-- The type `ErrorHandlingSpec`. -/
inductive ErrorHandlingSpec where
  | PropagateErrors
  | CatchErrors
deriving DecidableEq

open ErrorHandlingSpec

/-! ## Dispatch -/

/-- `_catchRuntimeErrors`: a `*RuntimeError` panic of `f` becomes (empty output, its
exit code); any other panic is re-raised (`none`). -/
def _catchRuntimeErrors (f : Rt InvocOutput) (rt : VMContext) :
    Option ((InvocOutput × ExitCode) × VMContext) :=
  match f rt with
  | .ok output rt1 => some ((output, OK), rt1)
  | .abort exitCode rt1 => some ((InvocOutput_Make [], exitCode), rt1)
  | .fatal => none

/-- The four named results of `_invokeMethodInternal`. -/
structure InvokeRet where
  ret : InvocOutput
  gasUsed : GasAmount
  exitCode : ExitCode
  internalCallSeqNumFinal : CallSeqNum

/-- `_invokeMethodInternal`, with the final state of the frame `rt` it was given.
On the early return for the pseudo-method `Send` the named results `exitCode`
and `internalCallSeqNumFinal` were never assigned; on the other path `gasUsed`
was never assigned. -/
def _invokeMethodInternal (env : Env) (rt : VMContext) (actorCode : ActorCode)
    (method : MethodNum) (params : MethodParams) : Option (InvokeRet × VMContext) :=
  if method = env.MethodSend then
    some ({ ret := InvocOutput_Make [], gasUsed := GasAmount_Zero,
            exitCode := env.ExitCode_zero, internalCallSeqNumFinal := 0 }, rt)
  else
    let rt := { rt with _running := true }
    match _catchRuntimeErrors (do
        let methodOutput ← actorCode.InvokeMethod method params
        _checkActorStateNotAcquired
        _checkNumValidateCalls 1
        return methodOutput) rt with
    | none => none
    | some ((ret, exitCode), rt) =>
      let rt := { rt with _running := false }
      some ({ ret := ret, gasUsed := 0, exitCode := exitCode,
              internalCallSeqNumFinal := rt._internalCallSeqNum }, rt)

/-- `_sendInternal`, lines 417 to 454, run on the sender frame `rtOuter`: the checks,
the code lookup, the gas reservation, the transfer, the callee frame and its
dispatch.  It hands on the reserved bound, the four results the callee reported
and the final callee frame; the receiver is by then the sender frame after the
reservation and the transfer.  The bound comes from the gas registry, which the
source leaves as a marked gap. -/
def _sendInternal_dispatch (env : Env) (input : InvocInput) :
    Rt (GasAmount × InvokeRet × VMContext) := do
  _checkRunning
  _checkActorStateNotAcquired
  let rtOuter ← getRt
  let toActor ← orPanic (rtOuter._globalStatePending.GetActorState input.To)
  let toActorCode ←
    match env.loadActorCode toActor.CodeID with
    | none => _throwError (SystemError ActorCodeNotFound)
    | some code => pure code
  let toActorMethodGasBound := env.toActorMethodGasBound toActor.CodeID input.Method input.Params
  _deductGasRemaining toActorMethodGasBound
  let err ← _transferFunds rtOuter._actorAddress input.To input.Value
  if err then
    _throwError (SystemError InsufficientFunds_System)
  let rtOuter ← getRt
  let rtInner := VMContext_Make
    rtOuter._toplevelSender
    rtOuter._toplevelBlockWinner
    rtOuter._toplevelSenderCallSeqNum
    (rtOuter._internalCallSeqNum + 1)
    rtOuter._globalStatePending
    input.To
    input.Value
    rtOuter._gasRemaining
  let callee ← orPanic (_invokeMethodInternal env rtInner toActorCode input.Method input.Params)
  return (toActorMethodGasBound, callee.1, callee.2)

/-- `_sendInternal`, lines 456 to 473: what the sender frame does with the results
`r` of the callee and the final callee frame `rtInner`. -/
def _sendInternal_finish (errSpec : ErrorHandlingSpec) (toActorMethodGasBound : GasAmount)
    (r : InvokeRet) (rtInner : VMContext) : Rt MessageReceipt := do
  modifyRt fun rtOuter => { rtOuter with _internalCallSeqNum := r.internalCallSeqNumFinal }
  _refundGasRemaining toActorMethodGasBound
  _deductGasRemaining r.gasUsed
  if r.exitCode.Equals (SystemError OutOfGas) then
    _throwError r.exitCode
  if errSpec = PropagateErrors && r.exitCode.IsError then
    _throwError (SystemError MethodSubcallError)
  if r.exitCode.AllowsStateUpdate then
    modifyRt fun rtOuter => { rtOuter with _globalStatePending := rtInner._globalStatePending }
  return MessageReceipt_Make r.ret r.exitCode r.gasUsed

/-- `_sendInternal`: its two halves in sequence. -/
def _sendInternal (env : Env) (input : InvocInput) (errSpec : ErrorHandlingSpec) :
    Rt MessageReceipt := do
  let d ← _sendInternal_dispatch env input
  _sendInternal_finish errSpec d.1 d.2.1 d.2.2

/-- `_sendInternalOutputs`. -/
def _sendInternalOutputs (env : Env) (input : InvocInput) (errSpec : ErrorHandlingSpec) :
    Rt (InvocOutput × ExitCode) := do
  let ret ← _sendInternal env input errSpec
  return (InvocOutput_Make ret.ReturnValue, ret.ExitCode)

/-- `SendPropagatingErrors`. -/
def SendPropagatingErrors (env : Env) (input : InvocInput) : Rt InvocOutput := do
  let (ret, _) ← _sendInternalOutputs env input PropagateErrors
  return ret

/-- `SendCatchingErrors`. -/
def SendCatchingErrors (env : Env) (input : InvocInput) : Rt (InvocOutput × ExitCode) :=
  _sendInternalOutputs env input CatchErrors

/-- `SendToplevelFromInterpreter`. -/
def SendToplevelFromInterpreter (env : Env) (input : InvocInput) :
    Rt (MessageReceipt × StateTree) := do
  modifyRt fun rt => { rt with _running := true }
  let ret ← _sendInternal env input CatchErrors
  modifyRt fun rt => { rt with _running := false }
  let rt ← getRt
  return (ret, rt._globalStatePending)

/-! ## Remaining API operations -/

/-- `CreateActor`. -/
def CreateActor (env : Env) (stateCID : ActorSystemStateCID) (address : Address)
    (initBalance : TokenAmount) (constructorParams : MethodParams) : Rt Unit := do
  let rt ← getRt
  if rt._actorAddress ≠ env.InitActorAddr then
    AbortAPI
  _updateActorSystemStateInternal address stateCID
  let _ ← SendPropagatingErrors env
    { To := address, Method := env.MethodConstructor, Params := constructorParams,
      Value := initBalance }

/-- `Compute`. -/
def Compute (env : Env) (f : ComputeFunctionID) (args : List AnyVal) : Rt AnyVal := do
  match env._computeFunctionDefs f with
  | none => AbortAPI
  | some fnDef =>
    let gasCost := fnDef.GasCostFn args
    _deductGasRemaining gasCost
    return fnDef.Body args

/-- `VerifySignature`; a result of `Compute` that is not a `bool` fails the type
assertion. -/
def VerifySignature (env : Env) (signerActor : Address) (sig m : AnyVal) : Rt Bool := do
  let rt ← getRt
  match rt._globalStatePending.GetActorState signerActor with
  | none => AbortAPI
  | some st =>
    match env.GetSignaturePublicKey st with
    | none => AbortAPI
    | some pk =>
      let ret ← Compute env env.ComputeFunctionID_VerifySignature [pk, sig, m]
      match ret with
      | .bool b => return b
      | _ => goPanic

/-- `CurrentBalance`, `CurrEpoch`, `CurrMethodNum`, `Randomness`, `IpldPut` and
`IpldGet`: each body ends in a string panic. -/
def unfinishedAPI {α : Type} : Rt α := goPanic

/-! ## Actor methods written against the Runtime API -/

/-- One call of actor code into the runtime, indexed by the type of what the call
returns. -/
inductive ApiCall : Type → Type where
  | Abort (errExitCode : ExitCode) : ApiCall Unit
  | Assert (cond : Bool) : ApiCall Unit
  | ImmediateCaller : ApiCall Address
  | ToplevelSender : ApiCall Address
  | ToplevelBlockWinner : ApiCall Address
  | InternalCallSeqNum : ApiCall CallSeqNum
  | ToplevelSenderCallSeqNum : ApiCall CallSeqNum
  | ValueReceived : ApiCall TokenAmount
  | ValidateImmediateCallerMatches (callerExpectedPattern : CallerPattern) : ApiCall Unit
  | AcquireState : ApiCall ActorStateHandle
  | Take (h : ActorStateHandle) : ApiCall (ActorSubstateCID × ActorStateHandle)
  | UpdateRelease (h : ActorStateHandle) (newStateCID : ActorSubstateCID) : ApiCall Unit
  | Release (h : ActorStateHandle) (checkStateCID : ActorSubstateCID) : ApiCall Unit
  | SendPropagatingErrors (input : InvocInput) : ApiCall InvocOutput
  | SendCatchingErrors (input : InvocInput) : ApiCall (InvocOutput × ExitCode)
  | CreateActor (stateCID : ActorSystemStateCID) (address : Address)
      (initBalance : TokenAmount) (constructorParams : MethodParams) : ApiCall Unit
  | Compute (f : ComputeFunctionID) (args : List AnyVal) : ApiCall AnyVal
  | VerifySignature (signerActor : Address) (sig m : AnyVal) : ApiCall Bool
  | Unfinished : ApiCall Unit

/-- The runtime method behind each call. -/
def ApiCall.run (env : Env) : {α : Type} → ApiCall α → Rt α
  | _, .Abort errExitCode => Runtime.Abort errExitCode
  | _, .Assert cond => Runtime.Assert cond
  | _, .ImmediateCaller => Runtime.ImmediateCaller
  | _, .ToplevelSender => Runtime.ToplevelSender
  | _, .ToplevelBlockWinner => Runtime.ToplevelBlockWinner
  | _, .InternalCallSeqNum => Runtime.InternalCallSeqNum
  | _, .ToplevelSenderCallSeqNum => Runtime.ToplevelSenderCallSeqNum
  | _, .ValueReceived => Runtime.ValueReceived
  | _, .ValidateImmediateCallerMatches p => Runtime.ValidateImmediateCallerMatches p
  | _, .AcquireState => Runtime.AcquireState
  | _, .Take h => h.Take
  | _, .UpdateRelease h newStateCID => h.UpdateRelease newStateCID
  | _, .Release h checkStateCID => h.Release checkStateCID
  | _, .SendPropagatingErrors input => Runtime.SendPropagatingErrors env input
  | _, .SendCatchingErrors input => Runtime.SendCatchingErrors env input
  | _, .CreateActor stateCID address initBalance constructorParams =>
    Runtime.CreateActor env stateCID address initBalance constructorParams
  | _, .Compute f args => Runtime.Compute env f args
  | _, .VerifySignature signerActor sig m => Runtime.VerifySignature env signerActor sig m
  | _, .Unfinished => unfinishedAPI

/-- What every operation of the Runtime API does on a running frame: it leaves the
frame running when it returns, and it raises only error codes. -/
structure Disciplined {α : Type} (m : Rt α) : Prop where
  run : ∀ rt : VMContext, rt._running = true →
    match m rt with
    | .ok _ rt1 => rt1._running = true
    | .abort e _ => e.IsError = true
    | .fatal => True

/-! ## A small world for concrete runs -/

/-- Three actors: 1 holds 500 and has code 10, 2 holds nothing and has code 20, 3
holds nothing and has code 30. -/
def demoTree : StateTree := fun a =>
  if a = 1 then some { CodeID := 10, State := [], Balance := 500 }
  else if a = 2 then some { CodeID := 20, State := [7], Balance := 0 }
  else if a = 3 then some { CodeID := 30, State := [], Balance := 0 }
  else none

/-- An environment that loads no code; the never-assigned exit code is taken to be
`OK`, the reserved gas bound is the zero amount of lines 427 to 429, and
compute function 0 costs 5000 gas. -/
def demoBase : Env :=
  { InitActorAddr := 50
    MethodSend := 0
    MethodConstructor := 1
    ExitCode_zero := OK
    loadActorCode := fun _ => none
    toActorMethodGasBound := fun _ _ _ => GasAmount_Zero
    _computeFunctionDefs := fun f =>
      if f = 0 then some { GasCostFn := fun _ => 5000, Body := fun _ => .bool true } else none
    ComputeFunctionID_VerifySignature := 0
    GetSignaturePublicKey := fun _ => none }

/-- The code of actor 2.  Method 2 validates its caller and returns one byte;
method 3 writes the substate `[9]` and then aborts; method 4 validates and
computes for more gas than there is; method 5 leaves its state handle
outstanding; every other method aborts over its arguments. -/
def demoCode : ActorCode :=
  { InvokeMethod := fun method _ =>
      if method = 2 then
        ValidateImmediateCallerAcceptAny >>= fun _ => pure (ValueReturn [1])
      else if method = 3 then
        AcquireState >>= fun h => h.UpdateRelease [9] >>= fun _ =>
          Abort (UserDefinedError InconsistentState_User)
      else if method = 4 then
        ValidateImmediateCallerAcceptAny >>= fun _ =>
          Compute demoBase 0 [] >>= fun _ => pure SuccessReturn
      else if method = 5 then
        ValidateImmediateCallerAcceptAny >>= fun _ => AcquireState >>= fun _ => pure SuccessReturn
      else AbortArg }

/-- The environment of the runs: code 20 is `demoCode`, no other code loads. -/
def demoEnv : Env :=
  { demoBase with loadActorCode := fun c => if c = 20 then some demoCode else none }

/-- The root frame of a message from actor 1 with gas limit 1000, as the interpreter
builds it. -/
def demoRoot : VMContext := VMContext_Make 1 9 0 0 demoTree 1 0 1000

/-- The frame of actor 1 while its code runs. -/
def demoSender : VMContext := { demoRoot with _running := true }

/-- The environment `demoBase` with a compute table in which function 1 costs 300
gas. -/
def demoCheap : Env :=
  { demoBase with
    _computeFunctionDefs := fun f =>
      if f = 1 then some { GasCostFn := fun _ => 300, Body := fun _ => .bool true } else none }

/-- Code whose every method validates its caller, computes for 300 gas and
returns. -/
def demoSpender : ActorCode :=
  { InvokeMethod := fun _ _ =>
      ValidateImmediateCallerAcceptAny >>= fun _ =>
        Compute demoCheap 1 [] >>= fun _ => pure SuccessReturn }

/-- An environment in which code 20 is `demoSpender` and no other code loads. -/
def demoGasEnv : Env :=
  { demoCheap with loadActorCode := fun c => if c = 20 then some demoSpender else none }

/-- A state in which the init actor, at address 50 with code 40, holds 200, next to
actor 2 with code 20. -/
def demoInitTree : StateTree := fun a =>
  if a = 50 then some { CodeID := 40, State := [], Balance := 200 }
  else if a = 2 then some { CodeID := 20, State := [7], Balance := 0 }
  else none

/-- The frame of the init actor while its code runs, with gas 1000. -/
def demoInitFrame : VMContext :=
  { VMContext_Make 1 9 0 0 demoInitTree 50 0 1000 with _running := true }

/-- The frame of actor 2 while its code runs, called from the root with gas 1000. -/
def demoCallee : VMContext :=
  { VMContext_Make 1 9 0 1 demoTree 2 0 1000 with _running := true }

/-- The frame `demoCallee` with a state handle outstanding. -/
def demoHolding : VMContext := { demoCallee with _actorStateAcquired := true }

/-- The frame `demoSender` at a point where its call sequence number is 5. -/
def demoDeep : VMContext := { demoSender with _internalCallSeqNum := 5 }

/-- Code whose every method validates its caller and returns the call sequence
number it observes. -/
def demoProbe : ActorCode :=
  { InvokeMethod := fun _ _ =>
      ValidateImmediateCallerAcceptAny >>= fun _ =>
        InternalCallSeqNum >>= fun n => pure (ValueReturn [n]) }

/-- An environment in which code 20 is `demoProbe` and no other code loads. -/
def demoProbeEnv : Env :=
  { demoBase with loadActorCode := fun c => if c = 20 then some demoProbe else none }

/-- Code whose every method accepts only the caller `a` and returns. -/
def demoGuard (a : Address) : ActorCode :=
  { InvokeMethod := fun _ _ => ValidateImmediateCallerIs a >>= fun _ => pure SuccessReturn }

/-- An environment in which code 20 is `demoGuard a` and no other code loads. -/
def demoGuardEnv (a : Address) : Env :=
  { demoBase with loadActorCode := fun c => if c = 20 then some (demoGuard a) else none }

/-! ## Running a method step by step -/

@[simp] theorem run_pure {α : Type} (a : α) (rt : VMContext) : (pure a : Rt α) rt = .ok a rt := rfl

@[simp] theorem run_bind {α β : Type} (m : Rt α) (f : α → Rt β) (rt : VMContext) :
    (m >>= f) rt =
      match m rt with
      | .ok a rt1 => f a rt1
      | .abort e rt1 => .abort e rt1
      | .fatal => .fatal := rfl

@[simp] theorem run_getRt (rt : VMContext) : getRt rt = .ok rt rt := rfl

@[simp] theorem run_modifyRt (f : VMContext → VMContext) (rt : VMContext) :
    modifyRt f rt = .ok () (f rt) := rfl

@[simp] theorem run_goPanic {α : Type} (rt : VMContext) : (goPanic : Rt α) rt = .fatal := rfl

@[simp] theorem run_throwErrorFull {α : Type} (e : ExitCode) (rt : VMContext) :
    (_throwErrorFull e : Rt α) rt = .abort e rt := rfl

@[simp] theorem run_throwError {α : Type} (e : ExitCode) (rt : VMContext) :
    (_throwError e : Rt α) rt = .abort e rt := rfl

@[simp] theorem run_apiError {α : Type} (rt : VMContext) :
    (_apiError : Rt α) rt = .abort (SystemError RuntimeAPIError) rt := rfl

@[simp] theorem run_AbortAPI {α : Type} (rt : VMContext) :
    (AbortAPI : Rt α) rt = .abort (SystemError RuntimeAPIError) rt := rfl

@[simp] theorem run_ite {α : Type} (c : Prop) [Decidable c] (m n : Rt α) (rt : VMContext) :
    (if c then m else n) rt = if c then m rt else n rt := by
  split <;> rfl

@[simp] theorem run_orPanic_some {α : Type} (a : α) (rt : VMContext) :
    orPanic (some a) rt = .ok a rt := rfl

@[simp] theorem run_orPanic_none {α : Type} (rt : VMContext) :
    (orPanic none : Rt α) rt = .fatal := rfl

theorem run_checkRunning (rt : VMContext) (h : rt._running = true) :
    _checkRunning rt = .ok () rt := by
  simp [_checkRunning, h]

theorem run_checkActorStateAcquiredFlag (rt : VMContext) (expected : Bool)
    (h : rt._running = true) :
    _checkActorStateAcquiredFlag expected rt =
      if rt._actorStateAcquired = expected then .ok () rt
      else .abort (SystemError RuntimeAPIError) rt := by
  simp [_checkActorStateAcquiredFlag, run_checkRunning rt h]

theorem run_checkNumValidateCalls (rt : VMContext) (x : Int) :
    _checkNumValidateCalls x rt =
      if rt._numValidateCalls = x then .ok () rt
      else .abort (SystemError RuntimeAPIError) rt := by
  simp [_checkNumValidateCalls]

theorem run_checkGasRemaining (rt : VMContext) :
    _checkGasRemaining rt =
      if 0 ≤ rt._gasRemaining then .ok () rt else .abort (SystemError OutOfGas) rt := by
  simp only [_checkGasRemaining, GasAmount_Zero, run_bind, run_getRt, run_ite, run_throwError,
    run_pure]
  split_ifs with h1 h2 h2
  · exact absurd h2 (not_le.mpr h1)
  · rfl
  · rfl
  · exact absurd (not_lt.mp h1) h2

theorem run_deductGasRemaining (rt : VMContext) (x : GasAmount) :
    _deductGasRemaining x rt =
      if 0 ≤ rt._gasRemaining then
        if 0 ≤ rt._gasRemaining - x then .ok () { rt with _gasRemaining := rt._gasRemaining - x }
        else .abort (SystemError OutOfGas) { rt with _gasRemaining := rt._gasRemaining - x }
      else .abort (SystemError OutOfGas) rt := by
  simp only [_deductGasRemaining, run_bind, run_checkGasRemaining, run_modifyRt]
  split_ifs <;> simp_all

theorem run_refundGasRemaining (rt : VMContext) (x : GasAmount) :
    _refundGasRemaining x rt =
      if 0 ≤ rt._gasRemaining then
        if 0 ≤ rt._gasRemaining + x then .ok () { rt with _gasRemaining := rt._gasRemaining + x }
        else .abort (SystemError OutOfGas) { rt with _gasRemaining := rt._gasRemaining + x }
      else .abort (SystemError OutOfGas) rt := by
  simp only [_refundGasRemaining, run_bind, run_checkGasRemaining, run_modifyRt]
  split_ifs <;> simp_all

/-! ## Caller validation, the state handle and gas (claims C8 to C10) -/

/-- C8: on a running frame `ValidateImmediateCallerMatches p` returns exactly when the
counter is 0 and `p` matches the immediate caller, and the counter is then 1;
in every other case it raises `SystemError(RuntimeAPIError)` and the frame,
counter included, is as before.  So a validation that follows a successful
one raises `RuntimeAPIError` whatever its pattern, and a method that calls
`ValidateImmediateCallerAcceptAny` twice ends in `RuntimeAPIError`. -/
theorem validateImmediateCaller_once (rt : VMContext) (p : CallerPattern)
    (hrun : rt._running = true) :
    ((rt._numValidateCalls = 0 ∧ p.Matches rt._immediateCaller = true) →
        ValidateImmediateCallerMatches p rt = .ok () { rt with _numValidateCalls := 1 }) ∧
    (¬ (rt._numValidateCalls = 0 ∧ p.Matches rt._immediateCaller = true) →
        ValidateImmediateCallerMatches p rt = .abort (SystemError RuntimeAPIError) rt) ∧
    (∀ (q : CallerPattern) (rt1 : VMContext),
        ValidateImmediateCallerMatches p rt = .ok () rt1 →
        ValidateImmediateCallerMatches q rt1 = .abort (SystemError RuntimeAPIError) rt1) ∧
    ((ValidateImmediateCallerAcceptAny >>= fun _ => ValidateImmediateCallerAcceptAny) rt).raised
        = some (SystemError RuntimeAPIError) := by
  have key : ∀ (q : CallerPattern) (r : VMContext), r._running = true →
      ValidateImmediateCallerMatches q r =
        if r._numValidateCalls = 0 then
          if q.Matches r._immediateCaller = true then
            .ok () { r with _numValidateCalls := r._numValidateCalls + 1 }
          else .abort (SystemError RuntimeAPIError) r
        else .abort (SystemError RuntimeAPIError) r := by
    intro q r hr
    simp only [ValidateImmediateCallerMatches, ImmediateCaller, run_bind, run_checkRunning r hr,
      run_checkNumValidateCalls, run_getRt, run_pure]
    split_ifs <;> simp_all
  refine ⟨?_, ?_, ?_, ?_⟩
  · rintro ⟨h0, hm⟩
    rw [key p rt hrun]
    simp [h0, hm]
  · intro h
    rw [key p rt hrun]
    split_ifs with h0 hm
    · exact absurd ⟨h0, hm⟩ h
    · rfl
    · rfl
  · intro q rt1 h1
    rw [key p rt hrun] at h1
    split_ifs at h1 with h0 hm
    cases h1
    simp [key, hrun, h0]
  · by_cases h0 : rt._numValidateCalls = 0 <;>
      simp [key, hrun, h0, CallerPattern_MakeAcceptAny, Result.raised,
        ValidateImmediateCallerAcceptAny]

theorem run_transferFunds (rt : VMContext) (from_ to_ : Address) (amount : TokenAmount)
    (hrun : rt._running = true) (hacq : rt._actorStateAcquired = false) :
    _transferFunds from_ to_ amount rt =
      match rt._globalStatePending.WithFundsTransfer from_ to_ amount with
      | none => .ok true rt
      | some tree => .ok false { rt with _globalStatePending := tree } := by
  simp only [_transferFunds, _checkActorStateNotAcquired, run_bind, run_checkRunning rt hrun,
    run_checkActorStateAcquiredFlag rt false hrun, hacq, if_true, run_getRt]
  cases rt._globalStatePending.WithFundsTransfer from_ to_ amount <;> simp [hacq]

/-- The frame of the callee of a Send issued on `rt`, built on line 438 from the
sender frame after the reservation of `bound` and the transfer to `tree`. -/
theorem run_sendInternal_dispatch (env : Env) (input : InvocInput) (rt : VMContext) :
    _sendInternal_dispatch env input rt =
      if rt._running = true then
        if rt._actorStateAcquired = false then
          match rt._globalStatePending.GetActorState input.To with
          | none => .fatal
          | some toActor =>
            match env.loadActorCode toActor.CodeID with
            | none => .abort (SystemError ActorCodeNotFound) rt
            | some code =>
              if 0 ≤ rt._gasRemaining then
                if 0 ≤ rt._gasRemaining
                    - env.toActorMethodGasBound toActor.CodeID input.Method input.Params then
                  match rt._globalStatePending.WithFundsTransfer rt._actorAddress input.To
                      input.Value with
                  | none => .abort (SystemError InsufficientFunds_System)
                      { rt with _gasRemaining := rt._gasRemaining
                          - env.toActorMethodGasBound toActor.CodeID input.Method input.Params }
                  | some tree =>
                    match _invokeMethodInternal env
                        (VMContext_Make rt._toplevelSender rt._toplevelBlockWinner
                          rt._toplevelSenderCallSeqNum (rt._internalCallSeqNum + 1) tree input.To
                          input.Value (rt._gasRemaining
                            - env.toActorMethodGasBound toActor.CodeID input.Method input.Params))
                        code input.Method input.Params with
                    | none => .fatal
                    | some callee =>
                      .ok (env.toActorMethodGasBound toActor.CodeID input.Method input.Params,
                            callee.1, callee.2)
                        { rt with
                          _gasRemaining := rt._gasRemaining
                            - env.toActorMethodGasBound toActor.CodeID input.Method input.Params
                          _globalStatePending := tree }
                else .abort (SystemError OutOfGas)
                  { rt with _gasRemaining := rt._gasRemaining
                      - env.toActorMethodGasBound toActor.CodeID input.Method input.Params }
              else .abort (SystemError OutOfGas) rt
        else .abort (SystemError RuntimeAPIError) rt
      else .fatal := by
  by_cases hrun : rt._running = true
  swap
  · simp [_sendInternal_dispatch, _checkRunning, hrun]
  by_cases hacq : rt._actorStateAcquired = false
  swap
  · simp [_sendInternal_dispatch, _checkActorStateNotAcquired, run_checkRunning rt hrun,
      run_checkActorStateAcquiredFlag rt false hrun, hrun, hacq]
  simp only [_sendInternal_dispatch, _checkActorStateNotAcquired, run_bind,
    run_checkRunning rt hrun, run_checkActorStateAcquiredFlag rt false hrun, hacq, hrun, if_true,
    run_getRt]
  cases hto : rt._globalStatePending.GetActorState input.To with
  | none => simp
  | some toActor =>
    simp only [run_orPanic_some]
    cases hcode : env.loadActorCode toActor.CodeID with
    | none => simp
    | some code =>
      simp only [run_bind, run_pure, run_deductGasRemaining]
      by_cases hg0 : 0 ≤ rt._gasRemaining
      swap
      · simp [hg0]
      by_cases hg1 : 0 ≤ rt._gasRemaining
          - env.toActorMethodGasBound toActor.CodeID input.Method input.Params
      swap
      · simp [hg0, hg1, hrun, hacq]
      simp only [hg0, hg1, if_true]
      rw [run_transferFunds
        { rt with _gasRemaining := rt._gasRemaining
            - env.toActorMethodGasBound toActor.CodeID input.Method input.Params }
        rt._actorAddress input.To input.Value hrun hacq]
      cases htr : rt._globalStatePending.WithFundsTransfer rt._actorAddress input.To input.Value with
      | none => simp [hrun, hacq]
      | some tree =>
        simp only [run_bind, run_pure, run_getRt, run_ite]
        cases hinv : _invokeMethodInternal env
            (VMContext_Make rt._toplevelSender rt._toplevelBlockWinner
              rt._toplevelSenderCallSeqNum (rt._internalCallSeqNum + 1) tree input.To
              input.Value (rt._gasRemaining
                - env.toActorMethodGasBound toActor.CodeID input.Method input.Params))
            code input.Method input.Params with
        | none => simp [hinv]
        | some callee => simp [hinv, hrun, hacq]

theorem run_sendInternal_finish (errSpec : ErrorHandlingSpec) (b : GasAmount) (r : InvokeRet)
    (rtInner rt : VMContext) :
    _sendInternal_finish errSpec b r rtInner rt =
      if 0 ≤ rt._gasRemaining then
        if 0 ≤ rt._gasRemaining + b then
          if 0 ≤ rt._gasRemaining + b - r.gasUsed then
            if r.exitCode = SystemError OutOfGas then
              .abort (SystemError OutOfGas)
                { rt with _internalCallSeqNum := r.internalCallSeqNumFinal
                          _gasRemaining := rt._gasRemaining + b - r.gasUsed }
            else if errSpec = PropagateErrors ∧ r.exitCode.IsError = true then
              .abort (SystemError MethodSubcallError)
                { rt with _internalCallSeqNum := r.internalCallSeqNumFinal
                          _gasRemaining := rt._gasRemaining + b - r.gasUsed }
            else if r.exitCode.AllowsStateUpdate = true then
              .ok (MessageReceipt_Make r.ret r.exitCode r.gasUsed)
                { rt with _internalCallSeqNum := r.internalCallSeqNumFinal
                          _gasRemaining := rt._gasRemaining + b - r.gasUsed
                          _globalStatePending := rtInner._globalStatePending }
            else
              .ok (MessageReceipt_Make r.ret r.exitCode r.gasUsed)
                { rt with _internalCallSeqNum := r.internalCallSeqNumFinal
                          _gasRemaining := rt._gasRemaining + b - r.gasUsed }
          else
            .abort (SystemError OutOfGas)
              { rt with _internalCallSeqNum := r.internalCallSeqNumFinal
                        _gasRemaining := rt._gasRemaining + b - r.gasUsed }
        else
          .abort (SystemError OutOfGas)
            { rt with _internalCallSeqNum := r.internalCallSeqNumFinal
                      _gasRemaining := rt._gasRemaining + b }
      else
        .abort (SystemError OutOfGas)
          { rt with _internalCallSeqNum := r.internalCallSeqNumFinal } := by
  simp only [_sendInternal_finish, run_bind, run_modifyRt, run_refundGasRemaining,
    run_deductGasRemaining, ExitCode.Equals]
  by_cases h0 : 0 ≤ rt._gasRemaining
  swap
  · simp [h0]
  by_cases h1 : 0 ≤ rt._gasRemaining + b
  swap
  · simp [h0, h1]
  by_cases h2 : 0 ≤ rt._gasRemaining + b - r.gasUsed
  swap
  · simp [h0, h1, h2]
  have h2' : r.gasUsed ≤ rt._gasRemaining + b := by linarith
  by_cases h3 : r.exitCode = SystemError OutOfGas
  · simp [h0, h1, h2, h2', h3]
  by_cases h4 : errSpec = PropagateErrors ∧ r.exitCode.IsError = true
  · simp [h0, h1, h2, h2', h3, h4]
  by_cases h5 : r.exitCode.AllowsStateUpdate = true
  · simp [h0, h1, h2, h2', h3, h4, h5]
  · simp [h0, h1, h2, h2', h3, h4, h5]

theorem run_invokeMethodInternal (env : Env) (rt : VMContext) (actorCode : ActorCode)
    (method : MethodNum) (params : MethodParams) (hm : method ≠ env.MethodSend) :
    _invokeMethodInternal env rt actorCode method params =
      match actorCode.InvokeMethod method params { rt with _running := true } with
      | .fatal => none
      | .abort e rt1 =>
        some ({ ret := InvocOutput_Make [], gasUsed := 0, exitCode := e,
                internalCallSeqNumFinal := rt1._internalCallSeqNum },
              { rt1 with _running := false })
      | .ok output rt1 =>
        if rt1._running = true then
          if rt1._actorStateAcquired = false ∧ rt1._numValidateCalls = 1 then
            some ({ ret := output, gasUsed := 0, exitCode := OK,
                    internalCallSeqNumFinal := rt1._internalCallSeqNum },
                  { rt1 with _running := false })
          else
            some ({ ret := InvocOutput_Make [], gasUsed := 0,
                    exitCode := SystemError RuntimeAPIError,
                    internalCallSeqNumFinal := rt1._internalCallSeqNum },
                  { rt1 with _running := false })
        else none := by
  simp only [_invokeMethodInternal, hm, if_false, _catchRuntimeErrors, run_bind,
    _checkActorStateNotAcquired]
  cases hcode : actorCode.InvokeMethod method params { rt with _running := true } with
  | fatal => simp [hcode]
  | abort e rt1 => simp [hcode]
  | ok output rt1 =>
    simp only [hcode]
    by_cases hrun : rt1._running = true
    swap
    · simp [_checkActorStateAcquiredFlag, _checkRunning, hrun]
    simp only [run_checkActorStateAcquiredFlag rt1 false hrun, run_checkNumValidateCalls, hrun,
      if_true]
    by_cases hacq : rt1._actorStateAcquired = false
    swap
    · simp [hacq]
    by_cases hnum : rt1._numValidateCalls = 1
    · simp [hacq, hnum, hrun]
    · simp [hacq, hnum, hrun]

/-- What `_invokeMethodInternal` reports for the pseudo-method `Send`. -/
theorem run_invokeMethodInternal_send (env : Env) (rt : VMContext) (actorCode : ActorCode)
    (params : MethodParams) :
    _invokeMethodInternal env rt actorCode env.MethodSend params =
      some ({ ret := InvocOutput_Make [], gasUsed := 0, exitCode := env.ExitCode_zero,
              internalCallSeqNumFinal := 0 }, rt) := by
  simp [_invokeMethodInternal, GasAmount_Zero]

theorem invokeMethodInternal_gasUsed (env : Env) (rt : VMContext) (actorCode : ActorCode)
    (method : MethodNum) (params : MethodParams) (r : InvokeRet) (rt1 : VMContext)
    (h : _invokeMethodInternal env rt actorCode method params = some (r, rt1)) :
    r.gasUsed = 0 := by
  by_cases hm : method = env.MethodSend
  · subst hm
    rw [run_invokeMethodInternal_send] at h
    cases h
    rfl
  · rw [run_invokeMethodInternal env rt actorCode method params hm] at h
    split at h
    · cases h
    · cases h
      rfl
    · split_ifs at h <;> cases h <;> rfl

theorem invokeMethodInternal_error_output (env : Env) (rt : VMContext) (actorCode : ActorCode)
    (method : MethodNum) (params : MethodParams) (r : InvokeRet) (rt1 : VMContext)
    (h : _invokeMethodInternal env rt actorCode method params = some (r, rt1))
    (herr : r.exitCode.IsError = true) :
    r.ret = InvocOutput_Make [] := by
  by_cases hm : method = env.MethodSend
  · subst hm
    rw [run_invokeMethodInternal_send] at h
    cases h
    rfl
  · rw [run_invokeMethodInternal env rt actorCode method params hm] at h
    split at h
    · cases h
    · cases h
      rfl
    · split_ifs at h
      · cases h
        simp [ExitCode.IsError] at herr
      · cases h
        rfl

/-- What a Send that reached its callee went through on the way. -/
theorem sendInternal_dispatch_ok (env : Env) (input : InvocInput) (rt rtSent rtInner : VMContext)
    (b : GasAmount) (r : InvokeRet)
    (hd : _sendInternal_dispatch env input rt = .ok (b, r, rtInner) rtSent) :
    ∃ toActor code tree,
      rt._running = true ∧ rt._actorStateAcquired = false ∧
      rt._globalStatePending.GetActorState input.To = some toActor ∧
      env.loadActorCode toActor.CodeID = some code ∧
      b = env.toActorMethodGasBound toActor.CodeID input.Method input.Params ∧
      0 ≤ rt._gasRemaining ∧ 0 ≤ rt._gasRemaining - b ∧
      rt._globalStatePending.WithFundsTransfer rt._actorAddress input.To input.Value = some tree ∧
      rtSent = { rt with _gasRemaining := rt._gasRemaining - b, _globalStatePending := tree } ∧
      _invokeMethodInternal env
        (VMContext_Make rt._toplevelSender rt._toplevelBlockWinner rt._toplevelSenderCallSeqNum
          (rt._internalCallSeqNum + 1) tree input.To input.Value (rt._gasRemaining - b))
        code input.Method input.Params = some (r, rtInner) := by
  rw [run_sendInternal_dispatch] at hd
  by_cases hrun : rt._running = true
  swap
  · simp [hrun] at hd
  by_cases hacq : rt._actorStateAcquired = false
  swap
  · simp [hrun, hacq] at hd
  rw [if_pos hrun, if_pos hacq] at hd
  cases hto : rt._globalStatePending.GetActorState input.To with
  | none => simp [hto] at hd
  | some toActor =>
    rw [hto] at hd
    cases hcode : env.loadActorCode toActor.CodeID with
    | none => simp [hcode] at hd
    | some code =>
      simp only [hcode] at hd
      by_cases hg0 : 0 ≤ rt._gasRemaining
      swap
      · simp [hg0] at hd
      by_cases hg1 : 0 ≤ rt._gasRemaining
          - env.toActorMethodGasBound toActor.CodeID input.Method input.Params
      swap
      · rw [if_pos hg0, if_neg hg1] at hd
        cases hd
      rw [if_pos hg0, if_pos hg1] at hd
      cases htr : rt._globalStatePending.WithFundsTransfer rt._actorAddress input.To
          input.Value with
      | none => simp [htr] at hd
      | some tree =>
        simp only [htr] at hd
        cases hinv : _invokeMethodInternal env
            (VMContext_Make rt._toplevelSender rt._toplevelBlockWinner
              rt._toplevelSenderCallSeqNum (rt._internalCallSeqNum + 1) tree input.To
              input.Value (rt._gasRemaining
                - env.toActorMethodGasBound toActor.CodeID input.Method input.Params))
            code input.Method input.Params with
        | none => simp [hinv] at hd
        | some callee =>
          simp only [hinv] at hd
          cases hd
          exact ⟨toActor, code, tree, hrun, hacq, rfl, hcode, rfl, hg0, hg1, rfl, rfl, hinv⟩

theorem run_sendInternal_of_dispatch (env : Env) (input : InvocInput)
    (errSpec : ErrorHandlingSpec) (rt rtSent rtInner : VMContext) (b : GasAmount) (r : InvokeRet)
    (hd : _sendInternal_dispatch env input rt = .ok (b, r, rtInner) rtSent) :
    _sendInternal env input errSpec rt = _sendInternal_finish errSpec b r rtInner rtSent := by
  simp [_sendInternal, hd]

theorem frame_running_eq (rt : VMContext) (h : rt._running = true) :
    { rt with _running := true } = rt := by
  cases rt
  simp_all

/-- C9: on a running frame with a state handle outstanding, `SendPropagatingErrors`,
`SendCatchingErrors` and `AcquireState` raise `SystemError(RuntimeAPIError)`
and leave the whole frame as it was (gas, pending state and all), whatever the
input and whatever code the environment would load: nothing is deducted,
nothing is transferred and no callee runs. -/
theorem send_and_acquire_need_state_released (env : Env) (input : InvocInput) (rt : VMContext)
    (hrun : rt._running = true) (hacq : rt._actorStateAcquired = true) :
    SendPropagatingErrors env input rt = .abort (SystemError RuntimeAPIError) rt ∧
    SendCatchingErrors env input rt = .abort (SystemError RuntimeAPIError) rt ∧
    _sendInternal_dispatch env input rt = .abort (SystemError RuntimeAPIError) rt ∧
    AcquireState rt = .abort (SystemError RuntimeAPIError) rt := by
  have hd : _sendInternal_dispatch env input rt = .abort (SystemError RuntimeAPIError) rt := by
    rw [run_sendInternal_dispatch]
    simp [hrun, hacq]
  refine ⟨?_, ?_, hd, ?_⟩
  · simp [SendPropagatingErrors, _sendInternalOutputs, _sendInternal, hd]
  · simp [SendCatchingErrors, _sendInternalOutputs, _sendInternal, hd]
  · simp [AcquireState, _checkActorStateNotAcquired, run_checkRunning rt hrun,
      run_checkActorStateAcquiredFlag rt false hrun, hacq]

/-- C10: for `x ≥ 0`, `_deductGasRemaining(x)` returns exactly when the gas remaining
is non-negative before the call and stays non-negative after subtracting `x`,
and the gas remaining is then the old value minus `x`; in every other case it
raises `SystemError(OutOfGas)`.  A deduction that lands on exactly 0 succeeds,
one that lands on -1 raises `OutOfGas`, and after `_checkGasRemaining`,
`_deductGasRemaining` or `_refundGasRemaining` returned the gas remaining is not
negative. -/
theorem deductGasRemaining_exact (rt : VMContext) (x : GasAmount) (hx : 0 ≤ x) :
    ((0 ≤ rt._gasRemaining ∧ 0 ≤ rt._gasRemaining - x) →
        _deductGasRemaining x rt = .ok () { rt with _gasRemaining := rt._gasRemaining - x }) ∧
    (¬ (0 ≤ rt._gasRemaining ∧ 0 ≤ rt._gasRemaining - x) →
        (_deductGasRemaining x rt).raised = some (SystemError OutOfGas)) ∧
    (rt._gasRemaining - x = 0 →
        _deductGasRemaining x rt = .ok () { rt with _gasRemaining := 0 }) ∧
    (rt._gasRemaining - x = -1 →
        (_deductGasRemaining x rt).raised = some (SystemError OutOfGas)) ∧
    (∀ (y : GasAmount) (rt1 : VMContext),
        (_checkGasRemaining rt = .ok () rt1 ∨ _deductGasRemaining y rt = .ok () rt1 ∨
          _refundGasRemaining y rt = .ok () rt1) → 0 ≤ rt1._gasRemaining) := by
  refine ⟨?_, ?_, ?_, ?_, ?_⟩
  · rintro ⟨h0, h1⟩
    rw [run_deductGasRemaining, if_pos h0, if_pos h1]
  · intro h
    rw [run_deductGasRemaining]
    split_ifs with h0 h1
    · exact absurd ⟨h0, h1⟩ h
    · rfl
    · rfl
  · intro h
    have h0 : 0 ≤ rt._gasRemaining := by linarith
    have h1 : 0 ≤ rt._gasRemaining - x := by linarith
    rw [run_deductGasRemaining, if_pos h0, if_pos h1, h]
  · intro h
    have h1 : ¬ 0 ≤ rt._gasRemaining - x := by
      rw [h]
      decide
    rw [run_deductGasRemaining]
    split_ifs <;> rfl
  · intro y rt1 h
    rcases h with h | h | h
    · rw [run_checkGasRemaining] at h
      split_ifs at h with h0
      cases h
      exact h0
    · rw [run_deductGasRemaining] at h
      split_ifs at h with h0 h1
      cases h
      exact h1
    · rw [run_refundGasRemaining] at h
      split_ifs at h with h0 h1
      cases h
      exact h1

/-! ## The Send engine (claims C2, C5, C6) -/

/-- C2: take a Send that reached its callee; `rtSent` is the
sender frame after the transfer (its pending state is the result of
`WithFundsTransfer` on the pending state before the call) and `rtInner` the
final callee frame.  If the callee exit code is `OK`, `_sendInternal` returns
the receipt and the pending state of the sender is the final pending state of
the callee frame.  If the callee exit code is an error, the pending state of
the sender, whether the call returns or raises, is the pending state after
the transfer: nothing the callee frame did is in it. -/
theorem send_commits_callee_state_only_on_ok (env : Env) (input : InvocInput)
    (errSpec : ErrorHandlingSpec) (rt rtSent rtInner : VMContext) (b : GasAmount) (r : InvokeRet)
    (hd : _sendInternal_dispatch env input rt = .ok (b, r, rtInner) rtSent) :
    rt._globalStatePending.WithFundsTransfer rt._actorAddress input.To input.Value
        = some rtSent._globalStatePending ∧
    (r.exitCode = OK →
        (_sendInternal env input errSpec rt).value = some (MessageReceipt_Make r.ret OK r.gasUsed) ∧
        Option.map VMContext._globalStatePending (_sendInternal env input errSpec rt).frame
          = some rtInner._globalStatePending) ∧
    (r.exitCode.IsError = true →
        Option.map VMContext._globalStatePending (_sendInternal env input errSpec rt).frame
          = some rtSent._globalStatePending) := by
  obtain ⟨toActor, code, tree, hrun, hacq, hto, hcode, hbd, hg0, hg1, htr, hsent, hinv⟩ :=
    sendInternal_dispatch_ok env input rt rtSent rtInner b r hd
  have hused : r.gasUsed = 0 := invokeMethodInternal_gasUsed _ _ _ _ _ _ _ hinv
  have hgs : rtSent._gasRemaining = rt._gasRemaining - b := by rw [hsent]
  have h0 : 0 ≤ rtSent._gasRemaining := by rw [hgs]; exact hg1
  have h1 : 0 ≤ rtSent._gasRemaining + b := by linarith
  have h2 : 0 ≤ rtSent._gasRemaining + b - r.gasUsed := by rw [hused]; linarith
  rw [run_sendInternal_of_dispatch env input errSpec rt rtSent rtInner b r hd,
    run_sendInternal_finish, if_pos h0, if_pos h1, if_pos h2]
  refine ⟨?_, ?_, ?_⟩
  · rw [hsent, htr]
  · intro hok
    simp [hok, ExitCode.IsError, ExitCode.AllowsStateUpdate, Result.value, Result.frame]
  · intro herr
    have hno : r.exitCode.AllowsStateUpdate = false := by
      cases hr : r.exitCode <;> simp_all [ExitCode.IsError, ExitCode.AllowsStateUpdate]
    split_ifs <;> simp_all [Result.frame]

/-- C5: take a Send that reached its callee, whose exit code is
`SystemError(OutOfGas)`.  In either mode `_sendInternal` raises
`SystemError(OutOfGas)` on the sender frame and returns no receipt, and so do
`SendPropagatingErrors` and `SendCatchingErrors`.  A method whose body is
`SendCatchingErrors(input)` followed by anything therefore ends, at its own
`_invokeMethodInternal`, with empty output and exit code `OutOfGas`. -/
theorem out_of_gas_passes_every_mode (env : Env) (input : InvocInput)
    (rt rtSent rtInner : VMContext) (b : GasAmount) (r : InvokeRet)
    (next : InvocOutput × ExitCode → Rt InvocOutput) (method : MethodNum) (params : MethodParams)
    (hd : _sendInternal_dispatch env input rt = .ok (b, r, rtInner) rtSent)
    (hexit : r.exitCode = SystemError OutOfGas) (hm : method ≠ env.MethodSend) :
    (∀ errSpec, (_sendInternal env input errSpec rt).raised = some (SystemError OutOfGas)) ∧
    (∀ errSpec, (_sendInternal env input errSpec rt).value = none) ∧
    (SendPropagatingErrors env input rt).raised = some (SystemError OutOfGas) ∧
    (SendCatchingErrors env input rt).raised = some (SystemError OutOfGas) ∧
    Option.map (fun x => (x.1.ret, x.1.exitCode))
        (_invokeMethodInternal env rt
          { InvokeMethod := fun _ _ => SendCatchingErrors env input >>= next } method params)
      = some (InvocOutput_Make [], SystemError OutOfGas) := by
  have hrun : rt._running = true := by
    obtain ⟨_, _, _, hrun, _⟩ := sendInternal_dispatch_ok env input rt rtSent rtInner b r hd
    exact hrun
  have key : ∀ errSpec, ∃ rt1,
      _sendInternal env input errSpec rt = .abort (SystemError OutOfGas) rt1 := by
    intro errSpec
    rw [run_sendInternal_of_dispatch env input errSpec rt rtSent rtInner b r hd,
      run_sendInternal_finish]
    split_ifs <;> exact ⟨_, rfl⟩
  obtain ⟨rtP, hP⟩ := key PropagateErrors
  obtain ⟨rtC, hC⟩ := key CatchErrors
  refine ⟨?_, ?_, ?_, ?_, ?_⟩
  · intro errSpec
    obtain ⟨rt1, h1⟩ := key errSpec
    rw [h1]
    rfl
  · intro errSpec
    obtain ⟨rt1, h1⟩ := key errSpec
    rw [h1]
    rfl
  · simp [SendPropagatingErrors, _sendInternalOutputs, hP, Result.raised]
  · simp [SendCatchingErrors, _sendInternalOutputs, hC, Result.raised]
  · rw [run_invokeMethodInternal env rt _ method params hm, frame_running_eq rt hrun]
    simp [SendCatchingErrors, _sendInternalOutputs, hC]

/-- C6: take a Send that reached its callee, whose exit code
is an error other than `SystemError(OutOfGas)`.  In `PropagateErrors` mode
(`SendPropagatingErrors`) the call raises `SystemError(MethodSubcallError)` on
the sender frame whatever the callee code was; in `CatchErrors` mode
(`SendCatchingErrors`) it returns empty output and the callee exit code
unchanged. -/
theorem callee_error_propagates_or_is_returned (env : Env) (input : InvocInput)
    (rt rtSent rtInner : VMContext) (b : GasAmount) (r : InvokeRet)
    (hd : _sendInternal_dispatch env input rt = .ok (b, r, rtInner) rtSent)
    (herr : r.exitCode.IsError = true) (hne : r.exitCode ≠ SystemError OutOfGas) :
    (_sendInternal env input PropagateErrors rt).raised = some (SystemError MethodSubcallError) ∧
    (SendPropagatingErrors env input rt).raised = some (SystemError MethodSubcallError) ∧
    (_sendInternal env input CatchErrors rt).value
      = some (MessageReceipt_Make (InvocOutput_Make []) r.exitCode 0) ∧
    (SendCatchingErrors env input rt).value = some (InvocOutput_Make [], r.exitCode) := by
  obtain ⟨toActor, code, tree, hrun, hacq, hto, hcode, hbd, hg0, hg1, htr, hsent, hinv⟩ :=
    sendInternal_dispatch_ok env input rt rtSent rtInner b r hd
  have hused : r.gasUsed = 0 := invokeMethodInternal_gasUsed _ _ _ _ _ _ _ hinv
  have hret : r.ret = InvocOutput_Make [] :=
    invokeMethodInternal_error_output _ _ _ _ _ _ _ hinv herr
  have hgs : rtSent._gasRemaining = rt._gasRemaining - b := by rw [hsent]
  have h0 : 0 ≤ rtSent._gasRemaining := by rw [hgs]; exact hg1
  have h1 : 0 ≤ rtSent._gasRemaining + b := by linarith
  have h2 : 0 ≤ rtSent._gasRemaining + b - r.gasUsed := by rw [hused]; linarith
  have hno : r.exitCode.AllowsStateUpdate = false := by
    cases hr : r.exitCode <;> simp_all [ExitCode.IsError, ExitCode.AllowsStateUpdate]
  have hP : ∃ rt1, _sendInternal env input PropagateErrors rt
      = .abort (SystemError MethodSubcallError) rt1 := by
    rw [run_sendInternal_of_dispatch env input _ rt rtSent rtInner b r hd,
      run_sendInternal_finish, if_pos h0, if_pos h1, if_pos h2, if_neg hne, if_pos ⟨rfl, herr⟩]
    exact ⟨_, rfl⟩
  have hC : ∃ rt1, _sendInternal env input CatchErrors rt
      = .ok (MessageReceipt_Make (InvocOutput_Make []) r.exitCode 0) rt1 := by
    rw [run_sendInternal_of_dispatch env input _ rt rtSent rtInner b r hd,
      run_sendInternal_finish, if_pos h0, if_pos h1, if_pos h2, if_neg hne, hret, hused]
    simp [hno]
  obtain ⟨rtP, hP⟩ := hP
  obtain ⟨rtC, hC⟩ := hC
  refine ⟨?_, ?_, ?_, ?_⟩
  · rw [hP]
    rfl
  · simp [SendPropagatingErrors, _sendInternalOutputs, hP, Result.raised]
  · rw [hC]
    rfl
  · simp [SendCatchingErrors, _sendInternalOutputs, hC, Result.value, MessageReceipt_Make,
      InvocOutput_Make]

/-! ## Every API operation is disciplined -/

theorem disc_pure {α : Type} (a : α) : Disciplined (pure a : Rt α) := by
  constructor
  intro rt hrun
  simpa using hrun

theorem disc_bind {α β : Type} {m : Rt α} {f : α → Rt β} (hm : Disciplined m)
    (hf : ∀ a, Disciplined (f a)) : Disciplined (m >>= f) := by
  constructor
  intro rt hrun
  have h1 := hm.run rt hrun
  simp only [run_bind]
  cases hmr : m rt with
  | ok a rt1 =>
    rw [hmr] at h1
    exact (hf a).run rt1 h1
  | abort e rt1 =>
    rw [hmr] at h1
    exact h1
  | fatal => trivial

theorem disc_getRt : Disciplined getRt := by
  constructor
  intro rt hrun
  simpa using hrun

theorem disc_throw {α : Type} (e : ExitCode) (he : e.IsError = true) :
    Disciplined (_throwErrorFull e : Rt α) := by
  constructor
  intro rt hrun
  simpa using he

theorem disc_modifyRt (f : VMContext → VMContext) (hf : ∀ rt, (f rt)._running = rt._running) :
    Disciplined (modifyRt f) := by
  constructor
  intro rt hrun
  simp [hf, hrun]

theorem disc_ite {α : Type} (c : Prop) [Decidable c] {m n : Rt α} (hm : Disciplined m)
    (hn : Disciplined n) : Disciplined (if c then m else n) := by
  split
  · exact hm
  · exact hn

theorem disc_checkGasRemaining : Disciplined _checkGasRemaining := by
  unfold _checkGasRemaining
  repeat' first
    | exact disc_pure _
    | exact disc_getRt
    | exact disc_throw _ rfl
    | apply disc_bind
    | apply disc_ite
    | intro _

theorem disc_refundGasRemaining (x : GasAmount) : Disciplined (_refundGasRemaining x) := by
  unfold _refundGasRemaining
  repeat' first
    | exact disc_checkGasRemaining
    | exact disc_modifyRt _ (fun _ => rfl)
    | apply disc_bind
    | intro _

theorem withFundsTransfer_keeps_state (t tree : StateTree) (from_ to_ : Address)
    (amount : TokenAmount) (h : t.WithFundsTransfer from_ to_ amount = some tree) (a : Address) :
    Option.map ActorState.State (tree a) = Option.map ActorState.State (t a) ∧
    Option.map ActorState.CodeID (tree a) = Option.map ActorState.CodeID (t a) := by
  unfold StateTree.WithFundsTransfer at h
  split at h
  · rename_i f g hf hg
    split_ifs at h with hlt
    simp only at h
    by_cases hft : to_ = from_
    · subst hft
      simp only [if_true, Option.some.injEq] at h
      subst h
      by_cases ha : a = to_
      · subst ha
        simp [hf]
      · simp [ha]
    · simp only [if_neg hft, hg, Option.some.injEq] at h
      subst h
      by_cases ha : a = to_
      · subst ha
        simp [hg]
      · by_cases hb : a = from_
        · subst hb
          simp [ha, hf]
        · simp [ha, hb]
  · cases h

theorem sendInternal_catch_error (env : Env) (input : InvocInput)
    (rt rtSent rtInner : VMContext) (b : GasAmount) (r : InvokeRet)
    (hd : _sendInternal_dispatch env input rt = .ok (b, r, rtInner) rtSent)
    (herr : r.exitCode.IsError = true) (hne : r.exitCode ≠ SystemError OutOfGas) :
    _sendInternal env input CatchErrors rt
      = .ok (MessageReceipt_Make (InvocOutput_Make []) r.exitCode 0)
          { rtSent with _internalCallSeqNum := r.internalCallSeqNumFinal
                        _gasRemaining := rtSent._gasRemaining + b - r.gasUsed } := by
  obtain ⟨toActor, code, tree, hrun, hacq, hto, hcode, hbd, hg0, hg1, htr, hsent, hinv⟩ :=
    sendInternal_dispatch_ok env input rt rtSent rtInner b r hd
  have hused : r.gasUsed = 0 := invokeMethodInternal_gasUsed _ _ _ _ _ _ _ hinv
  have hret : r.ret = InvocOutput_Make [] :=
    invokeMethodInternal_error_output _ _ _ _ _ _ _ hinv herr
  have hgs : rtSent._gasRemaining = rt._gasRemaining - b := by rw [hsent]
  have h0 : 0 ≤ rtSent._gasRemaining := by rw [hgs]; exact hg1
  have h1 : 0 ≤ rtSent._gasRemaining + b := by linarith
  have h2 : 0 ≤ rtSent._gasRemaining + b - r.gasUsed := by rw [hused]; linarith
  have hno : r.exitCode.AllowsStateUpdate = false := by
    cases hr : r.exitCode <;> simp_all [ExitCode.IsError, ExitCode.AllowsStateUpdate]
  rw [run_sendInternal_of_dispatch env input _ rt rtSent rtInner b r hd,
    run_sendInternal_finish, if_pos h0, if_pos h1, if_pos h2, if_neg hne, hret]
  simp [hno, hused]

/-- C3: the callee method does `AcquireState`, `UpdateRelease(x1)` and then aborts with
a user-defined error code; the caller, on a running frame with no handle
outstanding, enough gas for the bound and enough funds, uses
`SendCatchingErrors`.  The callee frame ends with `x1` as the substate of the
callee actor, yet the caller gets empty output with that very error code, its
pending state is the state after the transfer, and the substate ref of the
callee actor in it is the one from before the Send. -/
theorem user_abort_rolls_back (env : Env) (input : InvocInput) (rt : VMContext)
    (toActor : ActorState) (code : ActorCode) (tree : StateTree) (x1 : ActorSubstateCID)
    (sub : UserDefinedErrorCode)
    (hrun : rt._running = true) (hacq : rt._actorStateAcquired = false)
    (hto : rt._globalStatePending.GetActorState input.To = some toActor)
    (hcode : env.loadActorCode toActor.CodeID = some code)
    (hbody : code.InvokeMethod input.Method input.Params =
      (AcquireState >>= fun h => h.UpdateRelease x1 >>= fun _ => Abort (UserDefinedError sub)))
    (hm : input.Method ≠ env.MethodSend)
    (hg0 : 0 ≤ rt._gasRemaining)
    (hgas : 0 ≤ rt._gasRemaining
      - env.toActorMethodGasBound toActor.CodeID input.Method input.Params)
    (htr : rt._globalStatePending.WithFundsTransfer rt._actorAddress input.To input.Value
      = some tree) :
    (Option.map (fun d => Option.map ActorState.State
          (d.2.2._globalStatePending.GetActorState input.To))
        (_sendInternal_dispatch env input rt).value = some (some x1)) ∧
    (SendCatchingErrors env input rt).value
      = some (InvocOutput_Make [], UserDefinedError sub) ∧
    Option.map VMContext._globalStatePending (SendCatchingErrors env input rt).frame
      = some tree ∧
    Option.map ActorState.State (tree.GetActorState input.To) = some toActor.State := by
  have hks := (withFundsTransfer_keeps_state _ _ _ _ _ htr input.To).1
  have hto1 : rt._globalStatePending input.To = some toActor := hto
  rw [hto1] at hks
  obtain ⟨s, hs, hst⟩ : ∃ s, tree input.To = some s ∧ s.State = toActor.State := by
    cases hts : tree input.To with
    | none => simp [hts] at hks
    | some s =>
      refine ⟨s, rfl, ?_⟩
      simpa [hts] using hks
  have hinv : _invokeMethodInternal env
      (VMContext_Make rt._toplevelSender rt._toplevelBlockWinner rt._toplevelSenderCallSeqNum
        (rt._internalCallSeqNum + 1) tree input.To input.Value
        (rt._gasRemaining - env.toActorMethodGasBound toActor.CodeID input.Method input.Params))
      code input.Method input.Params
      = some ({ ret := InvocOutput_Make [], gasUsed := 0, exitCode := UserDefinedError sub,
                internalCallSeqNumFinal := rt._internalCallSeqNum + 1 },
              { VMContext_Make rt._toplevelSender rt._toplevelBlockWinner
                  rt._toplevelSenderCallSeqNum (rt._internalCallSeqNum + 1) tree input.To
                  input.Value (rt._gasRemaining
                    - env.toActorMethodGasBound toActor.CodeID input.Method input.Params) with
                _globalStatePending :=
                  fun x => if x = input.To then some { s with State := x1 } else tree x }) := by
    rw [run_invokeMethodInternal env _ code _ _ hm, hbody]
    simp [AcquireState, ActorStateHandle.UpdateRelease, _updateReleaseActorSubstate,
      _updateActorSubstateInternal, _checkActorStateNotAcquired, _checkActorStateAcquired,
      _checkActorStateAcquiredFlag, _checkRunning, VMContext_Make, StateTree.GetActorState,
      StateTree.WithActorSubstate, hs, Abort, EnsureErrorCode, ExitCode.IsError]
  have hd := run_sendInternal_dispatch env input rt
  rw [if_pos hrun, if_pos hacq, hto] at hd
  simp only [hcode, if_pos hg0, if_pos hgas, htr, hinv] at hd
  have hC := sendInternal_catch_error env input rt _ _ _ _ hd rfl (by simp)
  refine ⟨?_, ?_, ?_, ?_⟩
  · rw [hd]
    simp [Result.value, StateTree.GetActorState]
  · simp [SendCatchingErrors, _sendInternalOutputs, hC, Result.value, MessageReceipt_Make,
      InvocOutput_Make]
  · simp [SendCatchingErrors, _sendInternalOutputs, hC, Result.frame]
  · simp [StateTree.GetActorState, hs, hst]

/-! ## Failed Sends and the top-level entry (claims C1 and C4) -/

/-- C1: the claim wants the pending state of the sender after a `CatchErrors` Send with
a non-`OK` receipt to be the pending state from before the call.  Run on the
small world: actor 1 (balance 500) sends 100 to method 3 of actor 2, which
aborts with a user-defined error.  The receipt carries that error code, and
yet in the pending state of the sender actor 1 now holds 400 and actor 2 holds
100: the transfer made before the callee ran stays in place. -/
theorem failed_send_keeps_the_transfer :
    (_sendInternal demoEnv { To := 2, Method := 3, Params := [], Value := 100 } CatchErrors
        demoSender).value
      = some { ReturnValue := [], ExitCode := UserDefinedError InconsistentState_User,
               GasUsed := 0 } ∧
    Option.map ActorState.Balance (demoSender._globalStatePending.GetActorState 1) = some 500 ∧
    Option.map ActorState.Balance (demoSender._globalStatePending.GetActorState 2) = some 0 ∧
    Option.map (fun f => Option.map ActorState.Balance (f._globalStatePending.GetActorState 1))
        (_sendInternal demoEnv { To := 2, Method := 3, Params := [], Value := 100 } CatchErrors
          demoSender).frame = some (some 400) ∧
    Option.map (fun f => Option.map ActorState.Balance (f._globalStatePending.GetActorState 2))
        (_sendInternal demoEnv { To := 2, Method := 3, Params := [], Value := 100 } CatchErrors
          demoSender).frame = some (some 100) := by
  decide

/-- C4: the claim wants `SendToplevelFromInterpreter` to return a receipt for every
input.  Run on the root frame of the small world it returns nothing and a
`RuntimeError` leaves it instead: with `SystemError(ActorCodeNotFound)` when
the code of the target does not load, with `SystemError(OutOfGas)` when the
callee runs out of gas, and with `SystemError(InsufficientFunds_System)` when
the value exceeds the balance of the sender. -/
theorem toplevel_entry_lets_errors_escape :
    (SendToplevelFromInterpreter demoEnv { To := 3, Method := 2, Params := [], Value := 0 }
        demoRoot).value.isSome = false ∧
    (SendToplevelFromInterpreter demoEnv { To := 3, Method := 2, Params := [], Value := 0 }
        demoRoot).raised = some (SystemError ActorCodeNotFound) ∧
    (SendToplevelFromInterpreter demoEnv { To := 2, Method := 4, Params := [], Value := 0 }
        demoRoot).value.isSome = false ∧
    (SendToplevelFromInterpreter demoEnv { To := 2, Method := 4, Params := [], Value := 0 }
        demoRoot).raised = some (SystemError OutOfGas) ∧
    (SendToplevelFromInterpreter demoEnv { To := 2, Method := 2, Params := [], Value := 501 }
        demoRoot).value.isSome = false ∧
    (SendToplevelFromInterpreter demoEnv { To := 2, Method := 2, Params := [], Value := 501 }
        demoRoot).raised = some (SystemError InsufficientFunds_System) := by
  decide

/-! ## Instances of the theorems above on the small world -/

theorem send_commits_callee_state_only_on_ok_witness :
    (_sendInternal demoEnv { To := 2, Method := 2, Params := [], Value := 100 } CatchErrors
        demoSender).value
      = some { ReturnValue := [1], ExitCode := OK, GasUsed := 0 } :=
  ((send_commits_callee_state_only_on_ok demoEnv
      { To := 2, Method := 2, Params := [], Value := 100 } CatchErrors demoSender _ _ _ _
      rfl).2.1 rfl).1

theorem user_abort_rolls_back_witness :
    (SendCatchingErrors demoEnv { To := 2, Method := 3, Params := [], Value := 100 }
        demoSender).value
      = some (InvocOutput_Make [], UserDefinedError InconsistentState_User) :=
  (user_abort_rolls_back demoEnv { To := 2, Method := 3, Params := [], Value := 100 } demoSender
    { CodeID := 20, State := [7], Balance := 0 } demoCode _ [9] InconsistentState_User
    rfl rfl rfl rfl rfl (by decide) (by decide) (by decide) rfl).2.1

theorem out_of_gas_passes_every_mode_witness :
    (SendCatchingErrors demoEnv { To := 2, Method := 4, Params := [], Value := 0 }
        demoSender).raised = some (SystemError OutOfGas) :=
  (out_of_gas_passes_every_mode demoEnv { To := 2, Method := 4, Params := [], Value := 0 }
    demoSender _ _ _ _ (fun _ => pure SuccessReturn) 7 [] rfl rfl (by decide)).2.2.2.1

theorem callee_error_propagates_or_is_returned_witness :
    (SendPropagatingErrors demoEnv { To := 2, Method := 3, Params := [], Value := 100 }
        demoSender).raised = some (SystemError MethodSubcallError) :=
  (callee_error_propagates_or_is_returned demoEnv
    { To := 2, Method := 3, Params := [], Value := 100 } demoSender _ _ _ _ rfl rfl
    (by decide)).2.1

theorem validateImmediateCaller_once_witness :
    ValidateImmediateCallerMatches CallerPattern_MakeAcceptAny demoSender
      = .ok () { demoSender with _numValidateCalls := 1 } :=
  (validateImmediateCaller_once demoSender CallerPattern_MakeAcceptAny rfl).1 ⟨rfl, rfl⟩

theorem send_and_acquire_need_state_released_witness :
    AcquireState { demoSender with _actorStateAcquired := true }
      = .abort (SystemError RuntimeAPIError) { demoSender with _actorStateAcquired := true } :=
  (send_and_acquire_need_state_released demoEnv
    { To := 2, Method := 2, Params := [], Value := 100 }
    { demoSender with _actorStateAcquired := true } rfl rfl).2.2.2

theorem deductGasRemaining_exact_witness :
    _deductGasRemaining 1000 demoSender = .ok () { demoSender with _gasRemaining := 0 } :=
  (deductGasRemaining_exact demoSender 1000 (by decide)).2.2.1 (by decide)


/-! ## Gas across a Send (claims C11 and C20) -/

theorem sendInternal_ok_inv (env : Env) (input : InvocInput) (errSpec : ErrorHandlingSpec)
    (rt rt1 : VMContext) (receipt : MessageReceipt)
    (h : _sendInternal env input errSpec rt = .ok receipt rt1) :
    ∃ b r rtInner rtSent,
      _sendInternal_dispatch env input rt = .ok (b, r, rtInner) rtSent ∧
      _sendInternal_finish errSpec b r rtInner rtSent = .ok receipt rt1 := by
  simp only [_sendInternal, run_bind] at h
  cases hd : _sendInternal_dispatch env input rt with
  | ok d rtSent =>
    rw [hd] at h
    exact ⟨d.1, d.2.1, d.2.2, rtSent, rfl, h⟩
  | abort e rtA =>
    rw [hd] at h
    cases h
  | fatal =>
    rw [hd] at h
    cases h

theorem sendInternal_finish_ok (errSpec : ErrorHandlingSpec) (b : GasAmount) (r : InvokeRet)
    (rtInner rt rt1 : VMContext) (receipt : MessageReceipt)
    (h : _sendInternal_finish errSpec b r rtInner rt = .ok receipt rt1) :
    receipt = MessageReceipt_Make r.ret r.exitCode r.gasUsed ∧
    rt1._gasRemaining = rt._gasRemaining + b - r.gasUsed ∧
    rt1._internalCallSeqNum = r.internalCallSeqNumFinal ∧
    rt1._globalStatePending =
      (if r.exitCode.AllowsStateUpdate = true then rtInner._globalStatePending
       else rt._globalStatePending) := by
  rw [run_sendInternal_finish] at h
  split_ifs at h <;> cases h <;> simp_all

/-- C11: whenever `_sendInternal` returns a receipt, the gas remaining of the sender
frame after the call is its gas remaining before the call minus the gas used
the receipt reports, for every method gas bound `b` (non-negative or not).
The callee is dispatched with `b` reserved, and the refund of `b` on return
cancels the reservation. -/
theorem send_charges_only_reported_gas (env : Env) (input : InvocInput)
    (errSpec : ErrorHandlingSpec) (rt rt1 : VMContext) (receipt : MessageReceipt)
    (h : _sendInternal env input errSpec rt = .ok receipt rt1) :
    rt1._gasRemaining = rt._gasRemaining - receipt.GasUsed ∧
    (∀ b r rtInner rtSent,
        _sendInternal_dispatch env input rt = .ok (b, r, rtInner) rtSent →
        rtSent._gasRemaining = rt._gasRemaining - b ∧
        rt1._gasRemaining = rtSent._gasRemaining + b - receipt.GasUsed) := by
  obtain ⟨b, r, rtInner, rtSent, hd, hf⟩ := sendInternal_ok_inv env input errSpec rt rt1 receipt h
  obtain ⟨toActor, code, tree, hrun, hacq, hto, hcode, hbd, hg0, hg1, htr, hsent, hinv⟩ :=
    sendInternal_dispatch_ok env input rt rtSent rtInner b r hd
  obtain ⟨hrec, hgas, _, _⟩ := sendInternal_finish_ok errSpec b r rtInner rtSent rt1 receipt hf
  have hgs : rtSent._gasRemaining = rt._gasRemaining - b := by rw [hsent]
  have hused : receipt.GasUsed = r.gasUsed := by rw [hrec]; rfl
  refine ⟨?_, ?_⟩
  · rw [hgas, hgs, hused]
    ring
  · intro b2 r2 rtInner2 rtSent2 hd2
    rw [hd] at hd2
    cases hd2
    exact ⟨hgs, by rw [hgas, hused]⟩

/-- C20: `_invokeMethodInternal` reports zero gas used for every method and every actor
code, whatever the callee frame did to its own gas remaining.  Hence a Send
that returns a receipt reports zero gas used and leaves the gas remaining of
the sender frame exactly as it was before the Send: what the callee spent is
charged to nobody. -/
theorem callee_gas_is_charged_to_nobody (env : Env) (input : InvocInput)
    (errSpec : ErrorHandlingSpec) (rt rt1 : VMContext) (receipt : MessageReceipt)
    (h : _sendInternal env input errSpec rt = .ok receipt rt1) :
    (∀ (frame frame1 : VMContext) (actorCode : ActorCode) (method : MethodNum)
        (params : MethodParams) (r : InvokeRet),
        _invokeMethodInternal env frame actorCode method params = some (r, frame1) →
        r.gasUsed = GasAmount_Zero) ∧
    receipt.GasUsed = GasAmount_Zero ∧
    rt1._gasRemaining = rt._gasRemaining := by
  obtain ⟨b, r, rtInner, rtSent, hd, hf⟩ := sendInternal_ok_inv env input errSpec rt rt1 receipt h
  obtain ⟨toActor, code, tree, hrun, hacq, hto, hcode, hbd, hg0, hg1, htr, hsent, hinv⟩ :=
    sendInternal_dispatch_ok env input rt rtSent rtInner b r hd
  obtain ⟨hrec, hgas, _, _⟩ := sendInternal_finish_ok errSpec b r rtInner rtSent rt1 receipt hf
  have hgs : rtSent._gasRemaining = rt._gasRemaining - b := by rw [hsent]
  have hused : r.gasUsed = 0 := invokeMethodInternal_gasUsed _ _ _ _ _ _ _ hinv
  refine ⟨?_, ?_, ?_⟩
  · intro frame frame1 actorCode method params r2 h2
    exact invokeMethodInternal_gasUsed _ _ _ _ _ _ _ h2
  · rw [hrec]
    exact hused
  · rw [hgas, hgs, hused]
    ring

theorem send_charges_only_reported_gas_witness :
    Option.map VMContext._gasRemaining
        (_sendInternal demoEnv { To := 2, Method := 2, Params := [], Value := 100 }
          CatchErrors demoSender).frame = some 1000 :=
  congrArg some
    (send_charges_only_reported_gas demoEnv
      { To := 2, Method := 2, Params := [], Value := 100 } CatchErrors demoSender _ _ rfl).1

theorem callee_gas_is_charged_to_nobody_witness :
    Option.map (fun d => d.2.2._gasRemaining)
        (_sendInternal_dispatch demoGasEnv { To := 2, Method := 2, Params := [], Value := 100 }
          demoSender).value = some 700 ∧
    Option.map VMContext._gasRemaining
        (_sendInternal demoGasEnv { To := 2, Method := 2, Params := [], Value := 100 }
          CatchErrors demoSender).frame = some 1000 :=
  ⟨by decide,
    congrArg some
      (callee_gas_is_charged_to_nobody demoGasEnv
        { To := 2, Method := 2, Params := [], Value := 100 } CatchErrors demoSender _ _
        rfl).2.2⟩

/-! ## CreateActor (claims C13 and C14) -/

/-- C13: the claim wants `CreateActor(C, D, ...)` by the init actor to install the code
binding `C` at the new address `D`.  Run on the small world, where the init
actor sits at address 50 with code 40: for `C = 77` and the new address
`D = 60`, the state on which the Constructor Send is made has no entry at 60
and has code 77 bound to the init actor itself, and `CreateActor` ends in a
panic on the missing entry; for the existing address `D = 2` (code 20) the
Constructor Send is dispatched from a state in which actor 2 still has code
20 and the init actor has code 77. -/
theorem createActor_binds_code_to_init_actor :
    demoInitFrame._actorAddress = demoEnv.InitActorAddr ∧
    Option.map (fun f => Option.map ActorState.CodeID (f._globalStatePending.GetActorState 60))
        (_updateActorSystemStateInternal 60 77 demoInitFrame).frame = some none ∧
    Option.map (fun f => Option.map ActorState.CodeID (f._globalStatePending.GetActorState 50))
        (_updateActorSystemStateInternal 60 77 demoInitFrame).frame = some (some 77) ∧
    (CreateActor demoEnv 77 60 0 [] demoInitFrame).frame.isSome = false ∧
    Option.map (fun f => Option.map ActorState.CodeID (f._globalStatePending.GetActorState 2))
        (_updateActorSystemStateInternal 2 77 demoInitFrame).frame = some (some 20) ∧
    Option.map (fun d => (d.2.2._actorAddress,
          Option.map ActorState.CodeID (d.2.2._globalStateInit.GetActorState 2),
          Option.map ActorState.CodeID (d.2.2._globalStateInit.GetActorState 50)))
        ((_updateActorSystemStateInternal 2 77 >>= fun _ =>
            _sendInternal_dispatch demoEnv
              { To := 2, Method := demoEnv.MethodConstructor, Params := [], Value := 0 })
          demoInitFrame).value = some (2, some 20, some 77) := by
  decide

/-- C14: on a frame whose executing actor is not the init actor, `CreateActor` raises
`SystemError(RuntimeAPIError)` for all arguments and leaves the whole frame,
its pending state included, as it was; this holds in every environment, so
nothing is bound and no Constructor Send is made. -/
theorem createActor_only_for_init_actor (env : Env) (rt : VMContext)
    (stateCID : ActorSystemStateCID) (address : Address) (initBalance : TokenAmount)
    (constructorParams : MethodParams) (hne : rt._actorAddress ≠ env.InitActorAddr) :
    CreateActor env stateCID address initBalance constructorParams rt
      = .abort (SystemError RuntimeAPIError) rt := by
  simp [CreateActor, hne]

theorem createActor_only_for_init_actor_witness :
    CreateActor demoEnv 77 60 0 [] demoSender = .abort (SystemError RuntimeAPIError) demoSender :=
  createActor_only_for_init_actor demoEnv demoSender 77 60 0 [] (by decide)

/-! ## The state handle (claims C15 to C17) -/

theorem run_AcquireState (rt : VMContext) (s : ActorState) (hrun : rt._running = true)
    (hacq : rt._actorStateAcquired = false)
    (hs : rt._globalStatePending.GetActorState rt._actorAddress = some s) :
    AcquireState rt = .ok { _initValue := some s.State } { rt with _actorStateAcquired := true } := by
  simp [AcquireState, _checkActorStateNotAcquired, run_checkRunning rt hrun,
    run_checkActorStateAcquiredFlag rt false hrun, hacq, hs]

theorem run_updateReleaseActorSubstate (rt : VMContext) (s : ActorState)
    (x : ActorSubstateCID) (hrun : rt._running = true) (hacq : rt._actorStateAcquired = true)
    (hs : rt._globalStatePending.GetActorState rt._actorAddress = some s) :
    _updateReleaseActorSubstate x rt =
      .ok () { rt with
        _globalStatePending :=
          fun a => if a = rt._actorAddress then some { s with State := x }
            else rt._globalStatePending a
        _actorStateAcquired := false } := by
  have hs1 : rt._globalStatePending rt._actorAddress = some s := hs
  simp [_updateReleaseActorSubstate, _checkActorStateAcquired, _updateActorSubstateInternal,
    run_checkRunning rt hrun, run_checkActorStateAcquiredFlag rt true hrun, hacq,
    StateTree.WithActorSubstate, hs1]

theorem run_releaseActorSubstate (rt : VMContext) (checkStateCID : ActorSubstateCID)
    (hrun : rt._running = true) (hacq : rt._actorStateAcquired = true) :
    _releaseActorSubstate checkStateCID rt = .fatal := by
  simp only [_releaseActorSubstate, _checkActorStateAcquired, run_bind,
    run_checkRunning rt hrun, run_checkActorStateAcquiredFlag rt true hrun, hacq, if_true,
    run_getRt, ActorSubstateCID_Equals]
  cases rt._globalStatePending.GetActorState rt._actorAddress <;> simp

/-- C15: on a running frame with no handle outstanding whose executing actor has an
entry in the pending state (the Send that builds a callee frame has looked
that entry up), `AcquireState`, then `Take`, then `UpdateRelease(x)` returns;
afterwards the substate of the executing actor in the pending state is `x`,
the entry of every other actor is as before, and `_actorStateAcquired` is
false. -/
theorem acquire_take_updateRelease (rt : VMContext) (s : ActorState) (x : ActorSubstateCID)
    (hrun : rt._running = true) (hacq : rt._actorStateAcquired = false)
    (hs : rt._globalStatePending.GetActorState rt._actorAddress = some s) :
    ∃ rt1,
      (AcquireState >>= fun h => h.Take >>= fun taken => taken.2.UpdateRelease x) rt
        = .ok () rt1 ∧
      Option.map ActorState.State (rt1._globalStatePending.GetActorState rt._actorAddress)
        = some x ∧
      (∀ a, a ≠ rt._actorAddress →
        rt1._globalStatePending.GetActorState a = rt._globalStatePending.GetActorState a) ∧
      rt1._actorStateAcquired = false := by
  refine ⟨{ rt with
      _globalStatePending :=
        fun a => if a = rt._actorAddress then some { s with State := x }
          else rt._globalStatePending a }, ?_, ?_, ?_, ?_⟩
  · simp only [run_bind, run_AcquireState rt s hrun hacq hs, ActorStateHandle.Take, run_pure,
      ActorStateHandle.UpdateRelease]
    rw [run_updateReleaseActorSubstate { rt with _actorStateAcquired := true } s x hrun rfl hs]
    simp [hacq]
  · simp [StateTree.GetActorState]
  · intro a ha
    simp [StateTree.GetActorState, ha]
  · exact hacq

/-- C16: the claim wants `Release(r)`, on a running frame with a handle outstanding
whose executing actor has the substate ref `c`, to return when `r = c` and to
raise `SystemError(RuntimeAPIError)` when `r ≠ c`.  Run on the small world,
where actor 2 has the ref `[7]`: `Release([7])` returns nothing, raises no
`RuntimeError` and ends in the panic of `ActorSubstateCID_Equals`, before the
flag is cleared; `Release([8])` ends in the same panic and not in
`RuntimeAPIError`; and `AcquireState` followed by `Release([7])` ends there
too. -/
theorem release_ends_in_the_unfinished_comparison :
    demoHolding._running = true ∧ demoHolding._actorStateAcquired = true ∧
    Option.map ActorState.State
        (demoHolding._globalStatePending.GetActorState demoHolding._actorAddress)
      = some [7] ∧
    (ActorStateHandle.Release { _initValue := none } [7] demoHolding).value = none ∧
    (ActorStateHandle.Release { _initValue := none } [7] demoHolding).raised = none ∧
    (ActorStateHandle.Release { _initValue := none } [7] demoHolding).frame.isSome = false ∧
    (ActorStateHandle.Release { _initValue := none } [8] demoHolding).raised = none ∧
    (ActorStateHandle.Release { _initValue := none } [8] demoHolding).frame.isSome = false ∧
    ((AcquireState >>= fun h => h.Release [7]) demoCallee).value = none ∧
    ((AcquireState >>= fun h => h.Release [7]) demoCallee).frame.isSome = false := by
  decide

/-- C17: let `h` be the handle that `AcquireState` returned on a frame `rt` whose
executing actor had the entry `s` in the pending state.  The first `Take` on
`h`, on whatever frame it is made, returns the substate ref of `s` together
with the used handle; `Take` on the used handle raises
`SystemError(RuntimeAPIError)` and leaves it used, so every later `Take`
raises as well. -/
theorem take_only_once (rt rt1 : VMContext) (h : ActorStateHandle) (s : ActorState)
    (hacq : AcquireState rt = .ok h rt1)
    (hs : rt._globalStatePending.GetActorState rt._actorAddress = some s) :
    (∀ rt2, h.Take rt2 = .ok (s.State, { _initValue := none }) rt2) ∧
    (∀ rt3, ActorStateHandle.Take { _initValue := none } rt3
      = .abort (SystemError RuntimeAPIError) rt3) := by
  by_cases hrun : rt._running = true
  swap
  · simp [AcquireState, _checkRunning, hrun] at hacq
  by_cases hflag : rt._actorStateAcquired = false
  swap
  · simp [AcquireState, _checkActorStateNotAcquired, run_checkRunning rt hrun,
      run_checkActorStateAcquiredFlag rt false hrun, hflag] at hacq
  rw [run_AcquireState rt s hrun hflag hs] at hacq
  cases hacq
  refine ⟨?_, ?_⟩
  · intro rt2
    rfl
  · intro rt3
    rfl

theorem acquire_take_updateRelease_witness :
    Option.map (fun f => Option.map ActorState.State (f._globalStatePending.GetActorState 2))
        ((AcquireState >>= fun h => h.Take >>= fun taken => taken.2.UpdateRelease [9])
          demoCallee).frame = some (some [9]) := by
  obtain ⟨rt1, h1, h2, _⟩ :=
    acquire_take_updateRelease demoCallee { CodeID := 20, State := [7], Balance := 0 } [9]
      rfl rfl rfl
  rw [h1]
  exact congrArg some h2

theorem take_only_once_witness :
    ActorStateHandle.Take { _initValue := some [7] } demoHolding
      = .ok ([7], { _initValue := none }) demoHolding :=
  (take_only_once demoCallee _ _ { CodeID := 20, State := [7], Balance := 0 } rfl rfl).1
    demoHolding

/-! ## Pure value transfer through the top-level entry (claim C12) -/

/-- C18: the claim wants the call sequence number of the sender after a Send to be
the final one of the callee frame, hence at least one more than before, also
for the pseudo-method `Send`.  Run on the small world with the pseudo-method:
from a sender at 5 the callee frame is at 6 but the sender ends at 0; from a
sender at 0 it stays at 0, so that a method dispatched after the transfer
observes 1, exactly as a method dispatched first does, while a method
dispatched after another method observes 2. -/
theorem pseudo_send_resets_call_seq :
    Option.map (fun d => d.2.2._internalCallSeqNum)
        (_sendInternal_dispatch demoEnv { To := 2, Method := 0, Params := [], Value := 100 }
          demoDeep).value = some 6 ∧
    (_sendInternal demoEnv { To := 2, Method := 0, Params := [], Value := 100 } CatchErrors
        demoDeep).value = some { ReturnValue := [], ExitCode := OK, GasUsed := 0 } ∧
    Option.map VMContext._internalCallSeqNum
        (_sendInternal demoEnv { To := 2, Method := 0, Params := [], Value := 100 } CatchErrors
          demoDeep).frame = some 0 ∧
    Option.map VMContext._internalCallSeqNum
        (_sendInternal demoProbeEnv { To := 2, Method := 0, Params := [], Value := 100 }
          CatchErrors demoSender).frame = some 0 ∧
    (_sendInternal demoProbeEnv { To := 2, Method := 2, Params := [], Value := 0 } CatchErrors
        demoSender).value = some { ReturnValue := [1], ExitCode := OK, GasUsed := 0 } ∧
    ((_sendInternal demoProbeEnv { To := 2, Method := 0, Params := [], Value := 100 }
          CatchErrors >>= fun _ =>
        _sendInternal demoProbeEnv { To := 2, Method := 2, Params := [], Value := 0 }
          CatchErrors) demoSender).value
      = some { ReturnValue := [1], ExitCode := OK, GasUsed := 0 } ∧
    ((_sendInternal demoProbeEnv { To := 2, Method := 2, Params := [], Value := 0 }
          CatchErrors >>= fun _ =>
        _sendInternal demoProbeEnv { To := 2, Method := 2, Params := [], Value := 0 }
          CatchErrors) demoSender).value
      = some { ReturnValue := [2], ExitCode := OK, GasUsed := 0 } := by
  decide

/-- C19: every frame built by `VMContext_Make` has the unassigned address as immediate
caller, whatever the arguments.  The callee frame of a Send is such a frame,
whatever the address of the sender: a callee method that begins with
`ValidateImmediateCallerIs(a)` and then returns is reported with exit code
`OK` exactly when `a` is the unassigned address, and with
`SystemError(RuntimeAPIError)` otherwise.  On any frame whose immediate
caller is the unassigned address, `ValidateImmediateCallerIs(a)` returns only
for that address, while `ValidateImmediateCallerAcceptAny` returns on every
running frame that has not validated yet. -/
theorem callee_immediate_caller_is_unassigned (env : Env) (input : InvocInput)
    (rt rtSent rtInner : VMContext) (b : GasAmount) (r : InvokeRet) (toActor : ActorState)
    (code : ActorCode) (a : Address)
    (hd : _sendInternal_dispatch env input rt = .ok (b, r, rtInner) rtSent)
    (hto : rt._globalStatePending.GetActorState input.To = some toActor)
    (hcode : env.loadActorCode toActor.CodeID = some code)
    (hm : input.Method ≠ env.MethodSend)
    (hbody : code.InvokeMethod input.Method input.Params =
      (ValidateImmediateCallerIs a >>= fun _ => pure SuccessReturn)) :
    (∀ (toplevelSender toplevelBlockWinner : Address)
        (toplevelSenderCallSeqNum internalCallSeqNum : CallSeqNum) (globalState : StateTree)
        (actorAddress : Address) (valueReceived : TokenAmount) (gasRemaining : GasAmount),
        ImmediateCaller
            (VMContext_Make toplevelSender toplevelBlockWinner toplevelSenderCallSeqNum
              internalCallSeqNum globalState actorAddress valueReceived gasRemaining)
          = .ok Address_zero
            (VMContext_Make toplevelSender toplevelBlockWinner toplevelSenderCallSeqNum
              internalCallSeqNum globalState actorAddress valueReceived gasRemaining)) ∧
    (r.exitCode = OK ↔ a = Address_zero) ∧
    (a ≠ Address_zero → r.exitCode = SystemError RuntimeAPIError) ∧
    (∀ frame frame1 : VMContext, frame._immediateCaller = Address_zero →
        ValidateImmediateCallerIs a frame = .ok () frame1 → a = Address_zero) ∧
    (∀ frame : VMContext, frame._running = true → frame._numValidateCalls = 0 →
        ValidateImmediateCallerAcceptAny frame = .ok () { frame with _numValidateCalls := 1 }) := by
  obtain ⟨toActor2, code2, tree, hrun, hacq, hto2, hcode2, hbd, hg0, hg1, htr, hsent, hinv⟩ :=
    sendInternal_dispatch_ok env input rt rtSent rtInner b r hd
  rw [hto] at hto2
  cases hto2
  rw [hcode] at hcode2
  cases hcode2
  rw [run_invokeMethodInternal env _ code _ _ hm, hbody] at hinv
  have hexit : r.exitCode = if a = Address_zero then OK else SystemError RuntimeAPIError := by
    by_cases ha : a = Address_zero
    · simp [ValidateImmediateCallerIs, ValidateImmediateCallerMatches, ImmediateCaller,
        CallerPattern_MakeSingleton, _checkRunning, _checkNumValidateCalls, VMContext_Make, ha]
        at hinv
      rw [if_pos ha, ← hinv.1]
    · simp [ValidateImmediateCallerIs, ValidateImmediateCallerMatches, ImmediateCaller,
        CallerPattern_MakeSingleton, _checkRunning, _checkNumValidateCalls, VMContext_Make, ha]
        at hinv
      rw [if_neg ha, ← hinv.1]
  refine ⟨?_, ?_, ?_, ?_, ?_⟩
  · intros
    rfl
  · rw [hexit]
    by_cases ha : a = Address_zero <;> simp [ha]
  · intro ha
    rw [hexit, if_neg ha]
  · intro frame frame1 hzero hok
    by_contra ha
    by_cases hr : frame._running = true
    · by_cases hn : frame._numValidateCalls = 0
      · simp [ValidateImmediateCallerIs, ValidateImmediateCallerMatches, ImmediateCaller,
          CallerPattern_MakeSingleton, run_checkRunning frame hr, run_checkNumValidateCalls, hn,
          hzero, ha] at hok
      · simp [ValidateImmediateCallerIs, ValidateImmediateCallerMatches,
          run_checkRunning frame hr, run_checkNumValidateCalls, hn] at hok
    · simp [ValidateImmediateCallerIs, ValidateImmediateCallerMatches, _checkRunning, hr] at hok
  · intro frame hr hn
    simp [ValidateImmediateCallerAcceptAny, ValidateImmediateCallerMatches, ImmediateCaller,
      CallerPattern_MakeAcceptAny, run_checkRunning frame hr, run_checkNumValidateCalls, hn]

theorem callee_immediate_caller_is_unassigned_witness :
    Option.map (fun d => d.2.1.exitCode)
        (_sendInternal_dispatch (demoGuardEnv 1)
          { To := 2, Method := 2, Params := [], Value := 0 } demoSender).value
      = some (SystemError RuntimeAPIError) :=
  congrArg some
    ((callee_immediate_caller_is_unassigned (demoGuardEnv 1)
      { To := 2, Method := 2, Params := [], Value := 0 } demoSender _ _ _ _
      { CodeID := 20, State := [7], Balance := 0 } (demoGuard 1) 1 rfl rfl rfl (by decide)
      rfl).2.2.1 (by decide))

end Runtime
